import Mathlib

/-!
# Transfer engine of `grey`: a shallow embedding

The three operations of `service/payment.go` (`ProcessInternalPayment`,
`ProcessExternalPayment`, `TopUpProcess`) are embedded as pure functions over an
explicit store made of the three tables they touch (`accounts`, `payments`,
`ledger_entries`).  Around them stand the handlers of `controllers/payments.go` behind
`middlewares.SessionMiddleware`, and the registration handler of `controllers/users.go`,
which also writes table `users`.

Modelling conventions.

* `decimal.Decimal` values are exact decimals, represented by rationals, and what Go
  computes on them (`LessThanOrEqual`, `Cmp`) is exact.  A column of a row holds the
  decimal a later read of that column returns.
* The SQL expressions `balance - $1`, `balance + $1` and `balance >= $1`, and the
  writing of an amount into a `numeric(18,2)` column, are computed by the database, not
  by the program: they are the parameter `Arith` of the storage layer.  On a database
  with exact decimal arithmetic they are `Arith.exact`; SQLite, the storage of the test
  suite, computes them on IEEE doubles parsed from the text of the amount.
* A table is the list of its rows in primary-key order.  An `UPDATE ... WHERE` rewrites
  every row that satisfies the condition and reports how many rows it matched.
* A unit of work runs on a working copy of the store.  `Commit` publishes the working
  copy; `Rollback` (deferred in every operation) discards whatever was not committed.
* What the storage layer decides on its own is supplied by an `Env`: the fresh
  identifier produced by `uuid.NewString()`, the clock, and, for every storage call of
  the invocation, whether that call reports an error (`Faults`).  A call that reports
  an error has no effect of its own.
* `tx.Exec(...)` returns a fresh result handle carrying `Error` and `RowsAffected`; the
  handle `tx` returned by `Begin` keeps the `Error` it had when the unit of work began.
-/

namespace Grey

/-! ## Data model (`models/accounts.go`, `models/payments.go`, `models/ledger.go`) -/

/-- Exact decimal amounts (`decimal.Decimal`). -/
abbrev Decimal := ℚ

/-- Row of table `accounts` (`models.Account`). -/
structure Account where
  ID : Int
  UserID : Int
  AccountID : String
  Currency : String
  Balance : Decimal
  CreatedAt : Nat
  deriving DecidableEq

/-- Status of a payment (`models.PaymentStatus`). -/
inductive PaymentStatus where
  | Pending
  | Completed
  | Failed
  deriving DecidableEq

/-- Row of table `payments` (`models.Payment`). -/
structure Payment where
  ID : Int
  PaymentID : String
  FromAccount : String
  ToAccount : String
  Currency : String
  Amount : Decimal
  Status : PaymentStatus
  Description : String
  CreatedAt : Nat
  UpdatedAt : Nat
  deriving DecidableEq

/-- Row of table `ledger_entries` (`models.LedgerEntry`); the association fields
`Account` and `Payment` are not columns and are left zero by the engine. -/
structure LedgerEntry where
  ID : Int
  AccountID : String
  PaymentID : String
  Amount : Decimal
  CreatedAt : Nat
  deriving DecidableEq

/-- Recipient of an external payment (`structs.RecipientDetails`). -/
structure RecipientDetails where
  RecipientNumber : String
  RecipientName : String
  deriving DecidableEq

/-- Result of `ProcessExternalPayment` (`structs.ExternalPaymentResponse`). -/
structure ExternalPaymentResponse where
  PaymentID : String
  Recipient : RecipientDetails
  Status : String
  ProviderStatus : String
  deriving DecidableEq

/-- Result of `TopUpProcess` (`structs.TopUpResponse`). -/
structure TopUpResponse where
  PaymentID : String
  Status : String
  deriving DecidableEq

/-- The database: the three tables the engine reads and writes. -/
structure Store where
  accounts : List Account
  payments : List Payment
  ledger_entries : List LedgerEntry
  deriving DecidableEq

/-! ## Storage layer -/

/-- Which storage calls of one invocation report an error, and with what message. -/
structure Faults where
  beginErr : Option String
  debitErr : Option String
  creditErr : Option String
  createPaymentErr : Option String
  createLedgerErr : Option String
  commitErr : Option String
  deriving DecidableEq

/-- A storage layer in which no call fails. -/
def Faults.none : Faults :=
  ⟨Option.none, Option.none, Option.none, Option.none, Option.none, Option.none⟩

/-- Arithmetic of the database on decimal columns: the value a read returns after
`balance = balance - $1` (`sub balance amount`) and after `balance = balance + $1`
(`add balance amount`), the truth of `balance >= $1` (`ge balance amount`), and the value
a read returns after an amount was written into a `numeric(18,2)` column (`stored`). -/
structure Arith where
  sub : Decimal → Decimal → Decimal
  add : Decimal → Decimal → Decimal
  ge : Decimal → Decimal → Bool
  stored : Decimal → Decimal

/-- A database whose decimal arithmetic is exact and whose columns keep every digit. -/
def Arith.exact : Arith :=
  ⟨fun balance amount => balance - amount, fun balance amount => balance + amount,
    fun balance amount => decide (balance ≥ amount), fun amount => amount⟩

/-- Everything the storage layer decides by itself during one invocation. -/
structure Env where
  faults : Faults
  uuid : String
  now : Nat
  arith : Arith

/-- Storage calls an operation issues, in order. -/
inductive Call where
  | Begin
  | Exec
  | Create
  | Commit
  | Rollback
  deriving DecidableEq

/-- Handle returned by `Begin`: only its `Error` field is read by the engine. -/
structure Tx where
  Error : Option String
  deriving DecidableEq

/-- Result handle of `tx.Exec`. -/
structure ExecResult where
  Error : Option String
  RowsAffected : Nat
  deriving DecidableEq

/-- `DB.WithContext(ctx).Begin()`. -/
def Begin (env : Env) : Tx := ⟨env.faults.beginErr⟩

/-- `UPDATE accounts SET balance = <set balance> WHERE <cond>` on the rows of `accounts`:
the rewritten rows and the number of rows matched. -/
def updateAccounts (cond : Account → Bool) (set : Decimal → Decimal)
    (rows : List Account) : List Account × Nat :=
  (rows.map fun a => if cond a then { a with Balance := set a.Balance } else a,
   rows.countP cond)

/-- `UPDATE accounts SET balance = balance - $1 WHERE account_id = $2`. -/
def debitAny (arith : Arith) (amount : Decimal) (accountID : String)
    (rows : List Account) : List Account × Nat :=
  updateAccounts (fun a => a.AccountID == accountID) (fun b => arith.sub b amount) rows

/-- `UPDATE accounts SET balance = balance - $1 WHERE account_id = $2 AND balance >= $1`. -/
def debitIfSufficient (arith : Arith) (amount : Decimal) (accountID : String)
    (rows : List Account) : List Account × Nat :=
  updateAccounts (fun a => a.AccountID == accountID && arith.ge a.Balance amount)
    (fun b => arith.sub b amount) rows

/-- `UPDATE accounts SET balance = balance + $1 WHERE account_id = $2`. -/
def credit (arith : Arith) (amount : Decimal) (accountID : String)
    (rows : List Account) : List Account × Nat :=
  updateAccounts (fun a => a.AccountID == accountID) (fun b => arith.add b amount) rows

/-- `tx.Exec(stmt)` on the working copy `w`: a failing statement changes nothing. -/
def Exec (fault : Option String) (stmt : List Account → List Account × Nat) (w : Store) :
    ExecResult × Store :=
  match fault with
  | some e => (⟨some e, 0⟩, w)
  | Option.none => (⟨Option.none, (stmt w.accounts).2⟩, { w with accounts := (stmt w.accounts).1 })

/-- Next value of an auto-incremented integer primary key. -/
def nextID (ids : List Int) : Int := ids.foldl max 0 + 1

/-- `tx.Create(&payment)`: the `BeforeCreate` hook assigns `PaymentID`, the insert
assigns the primary key and the timestamps.  Returns the error, the struct as the
caller sees it afterwards (it is not read back), and the working copy, whose new row
holds the amount as the column stores it. -/
def CreatePayment (env : Env) (p : Payment) (w : Store) : Option String × Payment × Store :=
  let hooked : Payment := { p with PaymentID := env.uuid }
  match env.faults.createPaymentErr with
  | some e => (some e, hooked, w)
  | Option.none =>
    let row : Payment :=
      { hooked with ID := nextID (w.payments.map (·.ID)), CreatedAt := env.now, UpdatedAt := env.now }
    (Option.none, row,
      { w with payments := w.payments ++ [{ row with Amount := env.arith.stored row.Amount }] })

/-- `tx.Create(&ledgerEntry)`. -/
def CreateLedgerEntry (env : Env) (l : LedgerEntry) (w : Store) :
    Option String × LedgerEntry × Store :=
  match env.faults.createLedgerErr with
  | some e => (some e, l, w)
  | Option.none =>
    let row : LedgerEntry :=
      { l with ID := nextID (w.ledger_entries.map (·.ID)), CreatedAt := env.now }
    (Option.none, row,
      { w with ledger_entries :=
          w.ledger_entries ++ [{ row with Amount := env.arith.stored row.Amount }] })

/-- `tx.Commit()`: publishes the working copy `w` unless the commit fails, in which case
the deferred `Rollback` leaves the database `db` as it was.  The engine does not look at
the error `Commit` returns. -/
def Commit (env : Env) (db w : Store) : Store :=
  match env.faults.commitErr with
  | some _ => db
  | Option.none => w

/-- `models.IsAccountExists`: the first row of `accounts` with the given `account_id`. -/
def IsAccountExists (db : Store) (uuid : String) : Except String Account :=
  match db.accounts.find? (fun a => a.AccountID == uuid) with
  | some a => .ok a
  | Option.none => .error "record not found"

/-- Balance of the account with identifier `accountID`, if it exists. -/
def balance (db : Store) (accountID : String) : Option Decimal :=
  (db.accounts.find? (fun a => a.AccountID == accountID)).map (·.Balance)

/-- What one invocation of an engine operation leaves behind: the database afterwards,
the value or error returned, and the storage calls issued. -/
structure Outcome (α : Type) where
  store : Store
  result : Except String α
  calls : List Call

/-! ## The engine (`service/payment.go`) -/

/-- `service.ProcessInternalPayment`. -/
def ProcessInternalPayment (env : Env) (DB : Store) (fromAccount toAccount : String)
    (amount : Decimal) (currency : String) : Outcome Payment :=
  if amount ≤ 0 then ⟨DB, .error "invalid amount", []⟩ else
  let tx := Begin env
  match tx.Error with
  | some e => ⟨DB, .error e, [.Begin]⟩
  | Option.none =>
  -- 2. Deduct from source
  let (result, w1) := Exec env.faults.debitErr (debitAny env.arith amount fromAccount) DB
  match result.Error with
  | some e => ⟨DB, .error e, [.Begin, .Exec, .Rollback]⟩
  | Option.none =>
  if result.RowsAffected = 0 then
    ⟨DB, .error "insufficient balance", [.Begin, .Exec, .Rollback]⟩
  else
  -- 3. Add to target; the result handle is dropped and `tx.Error` is read instead
  let (_, w2) := Exec env.faults.creditErr (credit env.arith amount toAccount) w1
  match tx.Error with
  | some e => ⟨DB, .error e, [.Begin, .Exec, .Exec, .Rollback]⟩
  | Option.none =>
  let response : Payment :=
    { ID := 0, PaymentID := "", FromAccount := fromAccount, ToAccount := toAccount,
      Currency := currency, Amount := amount, Status := .Pending,
      Description := "Internal Payment", CreatedAt := 0, UpdatedAt := 0 }
  let (err, response, w3) := CreatePayment env response w2
  match err with
  | some e => ⟨DB, .error e, [.Begin, .Exec, .Exec, .Create, .Rollback]⟩
  | Option.none =>
  ⟨Commit env DB w3, .ok response, [.Begin, .Exec, .Exec, .Create, .Commit, .Rollback]⟩

/-- `service.ProcessExternalPayment`. -/
def ProcessExternalPayment (env : Env) (DB : Store) (recipient : RecipientDetails)
    (fromAccount : String) (amount : Decimal) (currency : String) :
    Outcome ExternalPaymentResponse :=
  if amount ≤ 0 then ⟨DB, .error "invalid amount", []⟩ else
  let tx := Begin env
  match tx.Error with
  | some e => ⟨DB, .error e, [.Begin]⟩
  | Option.none =>
  -- 2. Deduct from source
  let (result, w1) := Exec env.faults.debitErr (debitIfSufficient env.arith amount fromAccount) DB
  match result.Error with
  | some e => ⟨DB, .error e, [.Begin, .Exec, .Rollback]⟩
  | Option.none =>
  if result.RowsAffected = 0 then
    ⟨DB, .error "insufficient balance", [.Begin, .Exec, .Rollback]⟩
  else
  let payment : Payment :=
    { ID := 0, PaymentID := "", FromAccount := fromAccount, ToAccount := fromAccount,
      Currency := currency, Amount := amount, Status := .Completed,
      Description := "External Payment", CreatedAt := 0, UpdatedAt := 0 }
  let (err, payment, w2) := CreatePayment env payment w1
  match err with
  | some e => ⟨DB, .error e, [.Begin, .Exec, .Create, .Rollback]⟩
  | Option.none =>
  ⟨Commit env DB w2,
   .ok { PaymentID := payment.PaymentID, Recipient := recipient, Status := "success",
         ProviderStatus := "success" },
   [.Begin, .Exec, .Create, .Commit, .Rollback]⟩

/-- `service.TopUpProcess`. -/
def TopUpProcess (env : Env) (DB : Store) (fromAccount : String) (amount : Decimal)
    (currency : String) : Outcome TopUpResponse :=
  if amount ≤ 0 then ⟨DB, .error "invalid amount", []⟩ else
  let tx := Begin env
  match tx.Error with
  | some e => ⟨DB, .error e, [.Begin]⟩
  | Option.none =>
  -- 2. Add funds to account; the result handle is dropped and `tx.Error` is read instead
  let (_, w1) := Exec env.faults.creditErr (credit env.arith amount fromAccount) DB
  match tx.Error with
  | some e => ⟨DB, .error e, [.Begin, .Exec, .Rollback]⟩
  | Option.none =>
  let payment : Payment :=
    { ID := 0, PaymentID := "", FromAccount := fromAccount, ToAccount := fromAccount,
      Amount := amount, Currency := currency, Status := .Completed,
      Description := "Top up", CreatedAt := 0, UpdatedAt := 0 }
  let (err, payment, w2) := CreatePayment env payment w1
  match err with
  | some e => ⟨DB, .error e, [.Begin, .Exec, .Create, .Rollback]⟩
  | Option.none =>
  -- Create ledger entry
  let ledgerEntry : LedgerEntry :=
    { ID := 0, AccountID := fromAccount, PaymentID := payment.PaymentID, Amount := amount,
      CreatedAt := 0 }
  let (err, _, w3) := CreateLedgerEntry env ledgerEntry w2
  match err with
  | some e => ⟨DB, .error e, [.Begin, .Exec, .Create, .Create, .Rollback]⟩
  | Option.none =>
  ⟨Commit env DB w3, .ok { PaymentID := payment.PaymentID, Status := "success" },
   [.Begin, .Exec, .Create, .Create, .Commit, .Rollback]⟩

/-! ## Rows written by the operations

The rows as the tables hold them: the amount is the one the column stores. -/

/-- The `payments` row written by `ProcessInternalPayment`. -/
def internalRow (env : Env) (DB : Store) (fromAccount toAccount : String) (amount : Decimal)
    (currency : String) : Payment :=
  { ID := nextID (DB.payments.map (·.ID)), PaymentID := env.uuid, FromAccount := fromAccount,
    ToAccount := toAccount, Currency := currency, Amount := env.arith.stored amount, Status := .Pending,
    Description := "Internal Payment", CreatedAt := env.now, UpdatedAt := env.now }

/-- The `payments` row written by `ProcessExternalPayment`. -/
def externalRow (env : Env) (DB : Store) (fromAccount : String) (amount : Decimal)
    (currency : String) : Payment :=
  { ID := nextID (DB.payments.map (·.ID)), PaymentID := env.uuid, FromAccount := fromAccount,
    ToAccount := fromAccount, Currency := currency, Amount := env.arith.stored amount, Status := .Completed,
    Description := "External Payment", CreatedAt := env.now, UpdatedAt := env.now }

/-- The `payments` row written by `TopUpProcess`. -/
def topUpRow (env : Env) (DB : Store) (fromAccount : String) (amount : Decimal)
    (currency : String) : Payment :=
  { ID := nextID (DB.payments.map (·.ID)), PaymentID := env.uuid, FromAccount := fromAccount,
    ToAccount := fromAccount, Currency := currency, Amount := env.arith.stored amount, Status := .Completed,
    Description := "Top up", CreatedAt := env.now, UpdatedAt := env.now }

/-- The `ledger_entries` row written by `TopUpProcess`. -/
def topUpLedgerRow (env : Env) (DB : Store) (fromAccount : String) (amount : Decimal) :
    LedgerEntry :=
  { ID := nextID (DB.ledger_entries.map (·.ID)), AccountID := fromAccount,
    PaymentID := env.uuid, Amount := env.arith.stored amount, CreatedAt := env.now }

/-! ## HTTP layer (`middlewares`, `utils/error_response.go`, `controllers/payments.go`)

A handler receives what gin hands it: the value stored under `x-claim-payload` (if any)
and the form bound from the JSON body (`none` when `ShouldBindJSON` fails).  The `Amount`
of a form holds `decimal.NewFromFloat(form.Amount)`, the only way the handlers read that
field.  A response is the status code sent first and the JSON objects written, in order. -/

/-- Claims of a validated session token (`middlewares.JwtSessionPayload`). -/
structure JwtSessionPayload where
  Authorized : Bool
  Exp : Int
  UserID : String
  deriving DecidableEq

/-- Body of an internal payment request (`structs.InternalPaymentRequest`). -/
structure InternalPaymentRequest where
  FromAccount : String
  ToAccount : String
  Amount : Decimal
  Currency : String
  deriving DecidableEq

/-- Body of an external payment request (`structs.ExternalPaymentRequest`). -/
structure ExternalPaymentRequest where
  Account : String
  Amount : Decimal
  Currency : String
  TransactionType : String
  Recipient : RecipientDetails
  deriving DecidableEq

/-- Body of a top-up request (`structs.TopUp`). -/
structure TopUp where
  Account : String
  Amount : Decimal
  Currency : String
  deriving DecidableEq

/-- A JSON object written by `c.JSON` (`gin.H`), with the keys the handlers use. -/
structure Body (α : Type) where
  message : Option String
  status : Option Nat
  error : Option String
  data : Option String
  response : Option α

/-- The HTTP response: the status code and the JSON objects written. -/
structure Response (α : Type) where
  Code : Nat
  body : List (Body α)

/-- An invocation of the engine by a handler, with its arguments. -/
inductive EngineCall where
  | internal (fromAccount toAccount : String) (amount : Decimal) (currency : String)
  | external (recipient : RecipientDetails) (fromAccount : String) (amount : Decimal)
      (currency : String)
  | topUp (fromAccount : String) (amount : Decimal) (currency : String)
  deriving DecidableEq

/-- What serving one request leaves behind: the database afterwards, the response, and the
engine invocations made. -/
structure Handled (α : Type) where
  store : Store
  response : Response α
  engine : List EngineCall

/-- `c.AbortWithStatus(code)`: the status and no body. -/
def AbortWithStatus {α : Type} (code : Nat) : Response α := ⟨code, []⟩

/-- `c.JSON(code, gin.H{"message": message, "status": status})`. -/
def messageStatus {α : Type} (code : Nat) (message : String) (status : Nat) : Response α :=
  ⟨code, [⟨some message, some status, none, none, none⟩]⟩

/-- `c.JSON(code, gin.H{"message": message, "error": err})`. -/
def messageError {α : Type} (code : Nat) (message err : String) : Response α :=
  ⟨code, [⟨some message, none, some err, none, none⟩]⟩

/-- `c.JSON(200, gin.H{"response": response, "message": message})`. -/
def responseMessage {α : Type} (response : α) (message : String) : Response α :=
  ⟨200, [⟨some message, none, none, none, some response⟩]⟩

/-- `utils.ErrorResponse`. -/
def ErrorResponse {α : Type} (message : String) : Response α :=
  messageStatus 400 message 400

/-- `PaymentGroup.InternalPayment`. -/
def PaymentGroup.InternalPayment (env : Env) (DB : Store)
    (claimPayload : Option JwtSessionPayload) (form : Option InternalPaymentRequest) :
    Handled Payment :=
  match claimPayload with
  | none => ⟨DB, AbortWithStatus 401, []⟩
  | some _ =>
  match form with
  | none =>
    ⟨DB, ErrorResponse
      "Please check your payment details and ensure all required fields are filled correctly.",
      []⟩
  | some form =>
  match IsAccountExists DB form.FromAccount with
  | .error _ => ⟨DB, ErrorResponse "Account does not exist", []⟩
  | .ok fromID =>
  let proceesedAmount := form.Amount
  if fromID.Balance < proceesedAmount then
    ⟨DB, messageStatus 400 "Insufficient balance" 400, []⟩
  else
  match IsAccountExists DB form.ToAccount with
  | .error _ => ⟨DB, ErrorResponse "Account does not exist", []⟩
  | .ok toID =>
  let processedAmount := form.Amount
  let out :=
    ProcessInternalPayment env DB fromID.AccountID toID.AccountID processedAmount form.Currency
  let engine := [EngineCall.internal fromID.AccountID toID.AccountID processedAmount form.Currency]
  match out.result with
  | .error err =>
    if err = "invalid amount" then
      ⟨out.store, messageError 400 "Invalid amount" err, engine⟩
    else
      ⟨out.store, messageError 500 "Failed to process payment" err, engine⟩
  | .ok response => ⟨out.store, responseMessage response "Payment created successfully", engine⟩

/-- `PaymentGroup.ExternalPayment`. -/
def PaymentGroup.ExternalPayment (env : Env) (DB : Store)
    (claimPayload : Option JwtSessionPayload) (form : Option ExternalPaymentRequest) :
    Handled ExternalPaymentResponse :=
  match claimPayload with
  | none => ⟨DB, AbortWithStatus 401, []⟩
  | some _ =>
  match form with
  | none =>
    ⟨DB, ErrorResponse
      "Please check your payment details and ensure all required fields are filled correctly.",
      []⟩
  | some form =>
  match IsAccountExists DB form.Account with
  | .error err => ⟨DB, messageError 400 "Account not found" err, []⟩
  | .ok fromID =>
  let proceesedAmount := form.Amount
  if fromID.Balance < proceesedAmount then
    ⟨DB, messageStatus 400 "Insufficient balance" 400, []⟩
  else
  if form.TransactionType = "BANK_TRANSFER" then
    let out :=
      ProcessExternalPayment env DB form.Recipient fromID.AccountID form.Amount form.Currency
    let engine := [EngineCall.external form.Recipient fromID.AccountID form.Amount form.Currency]
    match out.result with
    | .error err => ⟨out.store, messageError 500 "Failed to process payment" err, engine⟩
    | .ok response =>
      ⟨out.store, responseMessage response "Payment created successfully", engine⟩
  else if form.TransactionType = "MOBILE_MONEY" then
    let out :=
      ProcessExternalPayment env DB form.Recipient fromID.AccountID form.Amount form.Currency
    let engine := [EngineCall.external form.Recipient fromID.AccountID form.Amount form.Currency]
    match out.result with
    | .error err => ⟨out.store, messageError 500 "Failed to process payment" err, engine⟩
    | .ok response =>
      ⟨out.store, responseMessage response "Payment created successfully", engine⟩
  else
    ⟨DB, ⟨400, [⟨some "Invalid transaction type support BANK_TRANSFER or MOBILE_MONEY",
      none, none, none, none⟩]⟩, []⟩

/-- `PaymentGroup.TopUp`. -/
def PaymentGroup.TopUp (env : Env) (DB : Store)
    (claimPayload : Option JwtSessionPayload) (form : Option TopUp) :
    Handled TopUpResponse :=
  match claimPayload with
  | none => ⟨DB, AbortWithStatus 401, []⟩
  | some _ =>
  match form with
  | none =>
    ⟨DB, ErrorResponse
      "Please check your payment details and ensure all required fields are filled correctly.",
      []⟩
  | some form =>
  match IsAccountExists DB form.Account with
  | .error err => ⟨DB, messageError 400 "Account not found" err, []⟩
  | .ok fromID =>
  let out := TopUpProcess env DB fromID.AccountID form.Amount form.Currency
  let engine := [EngineCall.topUp fromID.AccountID form.Amount form.Currency]
  match out.result with
  | .error err => ⟨out.store, messageError 500 "Failed to process payment" err, engine⟩
  | .ok response => ⟨out.store, responseMessage response "topup successfully", engine⟩

/-- `c.JSON(code, gin.H{"error": err})` written before the rest of the handler chain runs:
the status sent first stays, what the rest writes follows. -/
def errorThen {α : Type} (code : Nat) (err : String) (rest : Handled α) : Handled α :=
  { rest with response := ⟨code, ⟨none, none, some err, none, none⟩ :: rest.response.body⟩ }

/-- Characters of `strings.ReplaceAll(s, old, "")` for a non-empty `old`: scanning from the
left, every occurrence of `old` is dropped.  Each step consumes at least one character, so
a `fuel` equal to the length of `s` is never exhausted before `s` is. -/
def dropAll (old : List Char) : Nat → List Char → List Char
  | 0, s => s
  | _ + 1, [] => []
  | fuel + 1, c :: cs =>
    if (c :: cs).take old.length = old then dropAll old fuel ((c :: cs).drop old.length)
    else c :: dropAll old fuel cs

/-- `strings.ReplaceAll(s, old, "")`. -/
def ReplaceAll (s old : String) : String :=
  ⟨dropAll old.toList s.length s.toList⟩

/-- `middlewares.SessionMiddleware` in front of the handler `next`, which receives the value
stored under `x-claim-payload`.  The middleware never calls `c.Abort()`: when it returns
after writing its 401, gin goes on to `next`, just as when it calls `c.Next()` itself.
`ValidateSessionToken` (signature check of the JWT) is a parameter. -/
def SessionMiddleware {α : Type} (ValidateSessionToken : String → Except String JwtSessionPayload)
    (Authorization : String) (next : Option JwtSessionPayload → Handled α) : Handled α :=
  let bearerToken := ReplaceAll Authorization "Bearer "
  if bearerToken = "" then
    errorThen 401 "Authorization token required" (next none)
  else
    match ValidateSessionToken bearerToken with
    | .error _ => errorThen 401 "Invalid or expired token" (next none)
    | .ok claimPayload => next (some claimPayload)

/-- Route `POST /payment/api/internal_payment` (`routers.NewRouter`). -/
def route_internal_payment (ValidateSessionToken : String → Except String JwtSessionPayload)
    (env : Env) (DB : Store) (Authorization : String) (form : Option InternalPaymentRequest) :
    Handled Payment :=
  SessionMiddleware ValidateSessionToken Authorization
    (fun claimPayload => PaymentGroup.InternalPayment env DB claimPayload form)

/-- Route `POST /payment/api/external_payment` (`routers.NewRouter`). -/
def route_external_payment (ValidateSessionToken : String → Except String JwtSessionPayload)
    (env : Env) (DB : Store) (Authorization : String) (form : Option ExternalPaymentRequest) :
    Handled ExternalPaymentResponse :=
  SessionMiddleware ValidateSessionToken Authorization
    (fun claimPayload => PaymentGroup.ExternalPayment env DB claimPayload form)

/-- Route `POST /payment/api/topup` (`routers.NewRouter`). -/
def route_topup (ValidateSessionToken : String → Except String JwtSessionPayload)
    (env : Env) (DB : Store) (Authorization : String) (form : Option TopUp) :
    Handled TopUpResponse :=
  SessionMiddleware ValidateSessionToken Authorization
    (fun claimPayload => PaymentGroup.TopUp env DB claimPayload form)

/-! ## Registration (`models/users.go`, `controllers/users.go`) -/

/-- Row of table `users` (`models.User`); the association field `Account` is not a
column. -/
structure User where
  ID : Int
  UserId : String
  Email : String
  Password : String
  CreatedAt : Nat
  deriving DecidableEq

/-- Registration form (`structs.User`). -/
structure structs.User where
  Email : String
  Password : String
  deriving DecidableEq

/-- The database seen by registration: table `users` next to the tables of the engine. -/
structure Database where
  users : List User
  store : Store
  deriving DecidableEq

/-- Which storage calls of one registration report an error. -/
structure RegFaults where
  findErr : Option String
  beginErr : Option String
  createUserErr : Option String
  createAccountErr : Option String
  commitErr : Option String
  deriving DecidableEq

/-- A storage layer in which no call of a registration fails. -/
def RegFaults.none : RegFaults :=
  ⟨Option.none, Option.none, Option.none, Option.none, Option.none⟩

/-- Everything a registration takes from outside: the storage faults, the result of
`bcrypt.GenerateFromPassword`, the identifiers produced by `uuid.NewString()` for the user
and for the account, and the clock. -/
structure RegEnv where
  faults : RegFaults
  GenerateFromPassword : String → Except String String
  userUuid : String
  accountUuid : String
  now : Nat

/-- `models.IsEmailExists`: `Find` leaves the zero `User` when no row has the email. -/
def IsEmailExists (env : RegEnv) (db : Database) (email : String) : Except String User :=
  match env.faults.findErr with
  | some e => .error e
  | Option.none =>
    match db.users.find? (fun u => u.Email == email) with
    | some u => .ok u
    | Option.none => .ok ⟨0, "", "", "", 0⟩

/-- `tx.Create(user)`: fails when the handle failed to begin, when the insert fails, or when
the unique index on `email` is violated; otherwise the `BeforeCreate` hook assigns `UserId`
and the insert assigns the primary key and the timestamp. -/
def CreateUserRow (env : RegEnv) (u : User) (w : Database) : Option String × User × Database :=
  match env.faults.beginErr with
  | some e => (some e, u, w)
  | Option.none =>
  let hooked : User := { u with UserId := env.userUuid }
  match env.faults.createUserErr with
  | some e => (some e, hooked, w)
  | Option.none =>
  if w.users.any (fun x => x.Email == u.Email) then
    (some "UNIQUE constraint failed: users.email", hooked, w)
  else
    let row : User := { hooked with ID := nextID (w.users.map (·.ID)), CreatedAt := env.now }
    (Option.none, row, { w with users := w.users ++ [row] })

/-- `tx.Create(account)`: the `BeforeCreate` hook assigns `AccountID`, the insert assigns the
primary key and the timestamp. -/
def CreateAccountRow (env : RegEnv) (a : Account) (w : Database) :
    Option String × Account × Database :=
  let hooked : Account := { a with AccountID := env.accountUuid }
  match env.faults.createAccountErr with
  | some e => (some e, hooked, w)
  | Option.none =>
    let row : Account :=
      { hooked with ID := nextID (w.store.accounts.map (·.ID)), CreatedAt := env.now }
    (Option.none, row, { w with store := { w.store with accounts := w.store.accounts ++ [row] } })

/-- What serving one registration leaves behind. -/
structure Registered where
  db : Database
  response : Response Unit

/-- `UserGroup.CreateUser`.  The error of `Begin` is not inspected; it resurfaces in the
first `tx.Create`. -/
def UserGroup.CreateUser (env : RegEnv) (db : Database) (form : Option structs.User) :
    Registered :=
  match form with
  | none => ⟨db, ErrorResponse "Provide all the required fields"⟩
  | some form =>
  -- check if user exists
  match IsEmailExists env db form.Email with
  | .error _ =>
    ⟨db, ErrorResponse "We couldn't check your email at this time. Please try again later."⟩
  | .ok user =>
  if user.ID ≠ 0 then ⟨db, ErrorResponse "email already exists"⟩ else
  match env.GenerateFromPassword form.Password with
  | .error _ =>
    ⟨db, ErrorResponse
      "We encountered an issue while securing your password. Please try again."⟩
  | .ok hashPassword =>
  let user : User :=
    { ID := 0, UserId := "", Email := form.Email, Password := hashPassword, CreatedAt := 0 }
  -- create user
  let (err, user, w1) := CreateUserRow env user db
  match err with
  | some _ => ⟨db, ErrorResponse "error creating user"⟩
  | Option.none =>
  -- create account for user
  let account : Account :=
    { ID := 0, UserID := user.ID, AccountID := "", Currency := "USD", Balance := 0,
      CreatedAt := 0 }
  let (err, _, w2) := CreateAccountRow env account w1
  match err with
  | some _ => ⟨db, ErrorResponse "error creating account"⟩
  | Option.none =>
  match env.faults.commitErr with
  | some _ => ⟨db, ErrorResponse "error committing transaction"⟩
  | Option.none =>
    ⟨w2, ⟨201, [⟨some "success", some 201, none, some "user registered successfully", none⟩]⟩⟩

/-! ## Test fixtures (`tests/internal_payment_test.go`, `tests/topup_test.go`) -/

/-- A fault-free environment on a database with exact arithmetic. -/
def env0 : Env := ⟨Faults.none, "p-1", 0, Arith.exact⟩

/-- Accounts `A` (1000.00 USD) and `B` (500.00 USD) of one user, nothing else. -/
def storeAB : Store :=
  { accounts := [⟨1, 1, "A", "USD", 1000, 0⟩, ⟨2, 1, "B", "USD", 500, 0⟩],
    payments := [], ledger_entries := [] }

/-- A storage layer whose `Commit` fails and whose other calls succeed. -/
def envCommitFails : Env :=
  ⟨{ Faults.none with commitErr := some "commit failed" }, "p-1", 0, Arith.exact⟩

/-- A storage layer whose credit `UPDATE` fails and whose other calls succeed. -/
def envCreditFails : Env :=
  ⟨{ Faults.none with creditErr := some "update failed" }, "p-1", 0, Arith.exact⟩

/-- Some recipient of an external payment. -/
def recipient0 : RecipientDetails := ⟨"0240000000", "Ama"⟩

/-- A fault-free environment for a second invocation. -/
def env1 : Env := ⟨Faults.none, "p-2", 1, Arith.exact⟩

/-- Some validated session claims. -/
def claim0 : JwtSessionPayload := ⟨true, 0, "1"⟩

/-- A token validation that rejects every token. -/
def rejectAll : String → Except String JwtSessionPayload :=
  fun _ => .error "signature is invalid"

/-- A fault-free registration environment. -/
def regEnv0 : RegEnv :=
  ⟨RegFaults.none, fun password => .ok ("hash:" ++ password), "u-1", "a-1", 0⟩

/-- A registration environment in which creating the account fails. -/
def regEnvAccountFails : RegEnv :=
  ⟨{ RegFaults.none with createAccountErr := some "insert failed" },
    fun password => .ok ("hash:" ++ password), "u-1", "a-1", 0⟩

/-- A database with no user and no account. -/
def dbEmpty : Database :=
  ⟨[], { accounts := [], payments := [], ledger_entries := [] }⟩

/-- A database with one user, `test@example.com`, and that user's account. -/
def dbOneUser : Database :=
  ⟨[⟨1, "u-0", "test@example.com", "hashedpassword", 0⟩],
    { accounts := [⟨1, 1, "A", "USD", 0, 0⟩], payments := [], ledger_entries := [] }⟩

/-- The arithmetic of SQLite 3.40.1, the storage of the test suite, at the arguments the
evaluations below reach: what the three `UPDATE` statements of the engine, run with the
amount bound as the text of the decimal, and an insert of that text into a
`numeric(18,2)` column leave behind.  SQLite converts the text to an IEEE double and
computes on doubles; a read returns the shortest decimal of the double stored.  At the
arguments not listed SQLite is exact on the values the evaluations reach. -/
def arithSqlite : Arith :=
  { sub := fun balance amount =>
      if balance = 0.3 ∧ amount = 0.1 then 0.19999999999999998
      else if balance = 1000000000000000 ∧ amount = 1000000000000000.01 then 0
      else if balance = 1.788871137 ∧ amount = 1.788871137 then
        -0.0000000000000002220446049250313
      else balance - amount
    add := fun balance amount =>
      if balance = 0.1 ∧ amount = 0.2 then 0.30000000000000004
      else if balance = 0.07 ∧ amount = 0.04 then 0.11000000000000001
      else if balance = 0 ∧ amount = 1.788871137 then 1.7888711370000001
      else balance + amount
    ge := fun balance amount =>
      if balance = 1000000000000000 ∧ amount = 1000000000000000.01 then true
      else if balance = 1.788871137 ∧ amount = 1.788871137 then false
      else decide (balance ≥ amount)
    stored := fun amount =>
      if amount = 1000000000000000.01 then 1000000000000000
      else if amount = 1.788871137 then 1.7888711370000001
      else amount }

/-- A fault-free environment on SQLite. -/
def envSqlite : Env := ⟨Faults.none, "p-1", 0, arithSqlite⟩

/-- Accounts `A` (0.30 USD) and `B` (0.10 USD). -/
def storeCents : Store :=
  { accounts := [⟨1, 1, "A", "USD", 0.3, 0⟩, ⟨2, 1, "B", "USD", 0.1, 0⟩],
    payments := [], ledger_entries := [] }

/-- A single account `A` holding 1000000000000000.00 USD. -/
def storeLarge : Store :=
  { accounts := [⟨1, 1, "A", "USD", 1000000000000000, 0⟩], payments := [],
    ledger_entries := [] }

/-- Account `A` holding 1.788871137 USD (the balance a top-up of 1.7 followed by a top-up
of 0.088871137 leaves on SQLite 3.40.1) and an empty account `B`. -/
def storeWhole : Store :=
  { accounts := [⟨1, 1, "A", "USD", 1.788871137, 0⟩, ⟨2, 1, "B", "USD", 0, 0⟩],
    payments := [], ledger_entries := [] }

/-- A single account `A` holding 0.11 USD. -/
def storeEleven : Store :=
  { accounts := [⟨1, 1, "A", "USD", 0.11, 0⟩], payments := [], ledger_entries := [] }

/-! ## Lemmas on the storage layer -/

theorem find?_updateAccounts (cond : Account → Bool) (set : Decimal → Decimal)
    (rows : List Account) (id : String) :
    (updateAccounts cond set rows).1.find? (fun a => a.AccountID == id) =
      (rows.find? (fun a => a.AccountID == id)).map
        (fun a => if cond a then { a with Balance := set a.Balance } else a) := by
  induction rows with
  | nil => rfl
  | cons a rows ih =>
    simp only [updateAccounts, List.map_cons, List.find?_cons] at *
    by_cases hc : cond a <;> by_cases h : (a.AccountID == id) = true <;> simp [hc, h, ih]

/-- Balance seen through `find?` after an `UPDATE` keyed on the same identifier. -/
theorem balance_update_same (set : Decimal → Decimal) (rows : List Account) (id : String) :
    ((updateAccounts (fun a => a.AccountID == id) set rows).1.find?
        (fun a => a.AccountID == id)).map (·.Balance) =
      ((rows.find? (fun a => a.AccountID == id)).map (·.Balance)).map set := by
  rw [find?_updateAccounts]
  cases h : rows.find? (fun a => a.AccountID == id) with
  | none => rfl
  | some a =>
    have ha := List.find?_some h
    simp at ha
    simp [ha]

/-- Balance seen through `find?` after an `UPDATE` keyed on another identifier. -/
theorem balance_update_other (cond : Account → Bool) (set : Decimal → Decimal)
    (rows : List Account) (id id' : String) (hne : id' ≠ id)
    (hcond : ∀ a, cond a = true → a.AccountID = id') :
    ((updateAccounts cond set rows).1.find? (fun a => a.AccountID == id)).map (·.Balance) =
      (rows.find? (fun a => a.AccountID == id)).map (·.Balance) := by
  rw [find?_updateAccounts]
  cases h : rows.find? (fun a => a.AccountID == id) with
  | none => rfl
  | some a =>
    have ha := List.find?_some h
    simp at ha
    have : cond a = false := by
      cases hc : cond a with
      | false => rfl
      | true => exact absurd ((hcond a hc).symm.trans ha) hne
    simp [this]

/-! ## The operations when no storage call fails -/

theorem ProcessInternalPayment_noFaults (uuid : String) (now : Nat) (arith : Arith) (DB : Store)
    (fromAccount toAccount : String) (amount : Decimal) (currency : String)
    (hpos : 0 < amount) :
    ProcessInternalPayment ⟨Faults.none, uuid, now, arith⟩ DB fromAccount toAccount amount currency =
      if DB.accounts.countP (fun a => a.AccountID == fromAccount) = 0 then
        ⟨DB, .error "insufficient balance", [.Begin, .Exec, .Rollback]⟩
      else
        ⟨{ accounts :=
             (credit arith amount toAccount (debitAny arith amount fromAccount DB.accounts).1).1,
           payments := DB.payments ++
             [internalRow ⟨Faults.none, uuid, now, arith⟩ DB fromAccount toAccount amount currency],
           ledger_entries := DB.ledger_entries },
         .ok { internalRow ⟨Faults.none, uuid, now, arith⟩ DB fromAccount toAccount amount
                 currency with Amount := amount },
         [.Begin, .Exec, .Exec, .Create, .Commit, .Rollback]⟩ := by
  simp only [ProcessInternalPayment, not_le.mpr hpos, if_false, Begin, Faults.none, Exec,
    CreatePayment, Commit, internalRow, debitAny, credit, updateAccounts]

theorem ProcessExternalPayment_noFaults (uuid : String) (now : Nat) (arith : Arith) (DB : Store)
    (recipient : RecipientDetails) (fromAccount : String) (amount : Decimal)
    (currency : String) (hpos : 0 < amount) :
    ProcessExternalPayment ⟨Faults.none, uuid, now, arith⟩ DB recipient fromAccount amount currency =
      if DB.accounts.countP
          (fun a => a.AccountID == fromAccount && arith.ge a.Balance amount) = 0 then
        ⟨DB, .error "insufficient balance", [.Begin, .Exec, .Rollback]⟩
      else
        ⟨{ accounts := (debitIfSufficient arith amount fromAccount DB.accounts).1,
           payments := DB.payments ++
             [externalRow ⟨Faults.none, uuid, now, arith⟩ DB fromAccount amount currency],
           ledger_entries := DB.ledger_entries },
         .ok { PaymentID := uuid, Recipient := recipient, Status := "success",
               ProviderStatus := "success" },
         [.Begin, .Exec, .Create, .Commit, .Rollback]⟩ := by
  simp only [ProcessExternalPayment, not_le.mpr hpos, if_false, Begin, Faults.none, Exec,
    CreatePayment, Commit, externalRow, debitIfSufficient, updateAccounts]

theorem TopUpProcess_noFaults (uuid : String) (now : Nat) (arith : Arith) (DB : Store)
    (fromAccount : String) (amount : Decimal) (currency : String) (hpos : 0 < amount) :
    TopUpProcess ⟨Faults.none, uuid, now, arith⟩ DB fromAccount amount currency =
      ⟨{ accounts := (credit arith amount fromAccount DB.accounts).1,
         payments := DB.payments ++
           [topUpRow ⟨Faults.none, uuid, now, arith⟩ DB fromAccount amount currency],
         ledger_entries := DB.ledger_entries ++
           [topUpLedgerRow ⟨Faults.none, uuid, now, arith⟩ DB fromAccount amount] },
       .ok { PaymentID := uuid, Status := "success" },
       [.Begin, .Exec, .Create, .Create, .Commit, .Rollback]⟩ := by
  simp only [TopUpProcess, not_le.mpr hpos, if_false, Begin, Faults.none, Exec,
    CreatePayment, CreateLedgerEntry, Commit, topUpRow, topUpLedgerRow, credit, updateAccounts]

/-- An `UPDATE` keyed on an identifier matches a row exactly when the account exists. -/
theorem countP_pos_of_balance (rows : List Account) (id : String) (b : Decimal)
    (h : (rows.find? (fun a => a.AccountID == id)).map (·.Balance) = some b) :
    rows.countP (fun a => a.AccountID == id) ≠ 0 := by
  cases hf : rows.find? (fun a => a.AccountID == id) with
  | none => simp [hf] at h
  | some a =>
    have hmem := List.mem_of_find?_eq_some hf
    have hp := List.find?_some hf
    exact Nat.pos_iff_ne_zero.mp (List.countP_pos_iff.mpr ⟨a, hmem, hp⟩)

theorem balance_of_countP_pos (rows : List Account) (id : String)
    (h : rows.countP (fun a => a.AccountID == id) ≠ 0) :
    ∃ b, (rows.find? (fun a => a.AccountID == id)).map (·.Balance) = some b := by
  obtain ⟨a, hmem, hp⟩ := List.countP_pos_iff.mp (Nat.pos_iff_ne_zero.mpr h)
  cases hf : rows.find? (fun a => a.AccountID == id) with
  | none => exact absurd hp (by simpa using List.find?_eq_none.mp hf a hmem)
  | some a' => exact ⟨a'.Balance, rfl⟩

/-! ## Internal transfers -/

/-- C1 (counterexample): two transfers that return without error and do not move exactly
the amount.  A transfer of 100.00 from account `A` (1000.00) to itself leaves `A` at
1000.00 and not at 900.00.  On SQLite, a transfer of 0.10 from `A` (0.30) to `B` (0.10)
leaves `A` at 0.19999999999999998, which is not 0.30 minus 0.10. -/
theorem internal_transfer_not_exact :
    ((∃ p, (ProcessInternalPayment env0 storeAB "A" "A" 100 "USD").result = .ok p) ∧
      balance storeAB "A" = some 1000 ∧
      balance (ProcessInternalPayment env0 storeAB "A" "A" 100 "USD").store "A" = some 1000 ∧
      balance (ProcessInternalPayment env0 storeAB "A" "A" 100 "USD").store "A" ≠
        (balance storeAB "A").map (fun b => b - 100)) ∧
    ((∃ p, (ProcessInternalPayment envSqlite storeCents "A" "B" 0.1 "USD").result = .ok p) ∧
      balance storeCents "A" = some 0.3 ∧
      balance (ProcessInternalPayment envSqlite storeCents "A" "B" 0.1 "USD").store "A" =
        some 0.19999999999999998 ∧
      balance (ProcessInternalPayment envSqlite storeCents "A" "B" 0.1 "USD").store "A" ≠
        (balance storeCents "A").map (fun b => b - 0.1)) := by
  constructor
  · have h : ¬ ((100 : Decimal) ≤ 0) := by norm_num
    simp [h, ProcessInternalPayment, env0, storeAB, balance, Begin, Exec, debitAny, credit,
      updateAccounts, CreatePayment, Commit, Faults.none, Arith.exact]
    norm_num
  · have h : ¬ ((0.1 : Decimal) ≤ 0) := by norm_num
    simp [h, ProcessInternalPayment, envSqlite, storeCents, balance, Begin, Exec, debitAny,
      credit, updateAccounts, CreatePayment, Commit, Faults.none, arithSqlite]
    norm_num

/-- C1 (amended): when no storage call fails, the source and the destination are different
accounts, the destination exists, and the database computes `balance - amount` on the
source balance and `balance + amount` on the destination balance exactly, every
`ProcessInternalPayment` that returns without error lowers the balance of the source by
exactly `amount`, raises the balance of the destination by exactly `amount`, and leaves the
sum of the two balances unchanged. -/
theorem internal_conservation (uuid : String) (now : Nat) (arith : Arith) (DB : Store)
    (fromAccount toAccount : String) (amount : Decimal) (currency : String) (p : Payment)
    (bt : Decimal) (hne : fromAccount ≠ toAccount)
    (hto : balance DB toAccount = some bt)
    (hsub : ∀ bf, balance DB fromAccount = some bf → arith.sub bf amount = bf - amount)
    (hadd : arith.add bt amount = bt + amount)
    (hok : (ProcessInternalPayment ⟨Faults.none, uuid, now, arith⟩ DB fromAccount toAccount amount
      currency).result = .ok p) :
    ∃ bf, balance DB fromAccount = some bf ∧
      balance (ProcessInternalPayment ⟨Faults.none, uuid, now, arith⟩ DB fromAccount toAccount amount
        currency).store fromAccount = some (bf - amount) ∧
      balance (ProcessInternalPayment ⟨Faults.none, uuid, now, arith⟩ DB fromAccount toAccount amount
        currency).store toAccount = some (bt + amount) ∧
      (bf - amount) + (bt + amount) = bf + bt := by
  by_cases hamt : amount ≤ 0
  · simp [ProcessInternalPayment, hamt] at hok
  · rw [ProcessInternalPayment_noFaults _ _ _ _ _ _ _ _ (not_le.mp hamt)] at hok ⊢
    by_cases hrows : DB.accounts.countP (fun a => a.AccountID == fromAccount) = 0
    · simp [hrows] at hok
    · obtain ⟨bf, hbf⟩ := balance_of_countP_pos _ _ hrows
      refine ⟨bf, hbf, ?_, ?_, by ring⟩
      · simp only [hrows, if_false, balance, credit, debitAny]
        rw [balance_update_other _ _ _ fromAccount toAccount (Ne.symm hne)
          (fun a h => by simpa using h), balance_update_same, hbf]
        simp only [Option.map_some', hsub bf hbf]
      · simp only [hrows, if_false, balance, credit, debitAny]
        rw [balance_update_same, balance_update_other _ _ _ toAccount fromAccount hne
          (fun a h => by simpa using h)]
        simp only [balance] at hto
        rw [hto]
        simp only [Option.map_some', hadd]

/-- C1 (witness): the scenario of the test suite on exact arithmetic, `A` = 1000.00 and
`B` = 500.00, a transfer of 100.00 from `A` to `B` leaves `A` = 900.00 and `B` = 600.00. -/
theorem internal_conservation_witness :
    ∃ bf, balance storeAB "A" = some bf ∧
      balance (ProcessInternalPayment ⟨Faults.none, "p-1", 0, Arith.exact⟩ storeAB "A" "B" 100
        "USD").store "A" = some (bf - 100) ∧
      balance (ProcessInternalPayment ⟨Faults.none, "p-1", 0, Arith.exact⟩ storeAB "A" "B" 100
        "USD").store "B" = some (500 + 100) ∧
      (bf - 100) + (500 + 100) = bf + 500 :=
  internal_conservation "p-1" 0 Arith.exact storeAB "A" "B" 100 "USD"
    { internalRow ⟨Faults.none, "p-1", 0, Arith.exact⟩ storeAB "A" "B" 100 "USD" with
      Amount := 100 } 500 (by decide)
    (by simp [balance, storeAB]) (fun _ _ => rfl) rfl
    (by
      have h : ¬ ((100 : Decimal) ≤ 0) := by norm_num
      simp [h, ProcessInternalPayment, storeAB, Begin, Exec, debitAny, credit,
        updateAccounts, CreatePayment, Commit, Faults.none, internalRow])

/-- C2 (failing input): with `A` = 1000.00, `ProcessInternalPayment` of 2000.00 from `A`
to `B` is not rejected: it returns a Payment, leaves `A` at -1000.00 and stores one
Payment. -/
theorem internal_overdraft_not_rejected :
    balance storeAB "A" = some 1000 ∧
      (ProcessInternalPayment env0 storeAB "A" "B" 2000 "USD").result =
        .ok (internalRow env0 storeAB "A" "B" 2000 "USD") ∧
      balance (ProcessInternalPayment env0 storeAB "A" "B" 2000 "USD").store "A" =
        some (-1000) ∧
      (ProcessInternalPayment env0 storeAB "A" "B" 2000 "USD").store.payments =
        [internalRow env0 storeAB "A" "B" 2000 "USD"] := by
  have h : ¬ ((2000 : Decimal) ≤ 0) := by norm_num
  simp [h, ProcessInternalPayment, env0, storeAB, balance, Begin, Exec, debitAny, credit,
    updateAccounts, CreatePayment, Commit, Faults.none, internalRow, Arith.exact]
  norm_num

/-- C3 (failing input): every balance of the store `A` = 1000.00, `B` = 500.00 is
non-negative, and after `ProcessInternalPayment` of 2000.00 from `A` to `B` the store
holds an account with a negative balance. -/
theorem internal_overdraft_breaks_nonneg :
    (∀ a ∈ storeAB.accounts, 0 ≤ a.Balance) ∧
      ∃ a ∈ (ProcessInternalPayment env0 storeAB "A" "B" 2000 "USD").store.accounts,
        a.Balance < 0 := by
  have h : ¬ ((2000 : Decimal) ≤ 0) := by norm_num
  simp [h, ProcessInternalPayment, env0, storeAB, Begin, Exec, debitAny, credit,
    updateAccounts, CreatePayment, Commit, Faults.none, Arith.exact]
  norm_num

/-- An `UPDATE` that writes only non-negative balances keeps all balances non-negative. -/
theorem updateAccounts_nonneg (cond : Account → Bool) (set : Decimal → Decimal)
    (rows : List Account) (h : ∀ a ∈ rows, 0 ≤ a.Balance)
    (hset : ∀ a ∈ rows, cond a = true → 0 ≤ set a.Balance) :
    ∀ a ∈ (updateAccounts cond set rows).1, 0 ≤ a.Balance := by
  intro a ha
  simp only [updateAccounts, List.mem_map] at ha
  obtain ⟨a0, hmem, rfl⟩ := ha
  by_cases hc : cond a0 = true
  · simpa [hc] using hset a0 hmem hc
  · simpa [hc] using h a0 hmem

/-- The conditional debit of `ProcessExternalPayment` and the credit of `TopUpProcess` keep
every balance non-negative, whatever the storage layer does, on a database whose
arithmetic keeps signs: a difference is non-negative when `balance >= amount` holds, and
the sum of a non-negative balance and a positive amount is non-negative.  Of the three
operations only `ProcessInternalPayment`, whose debit has no condition on the balance,
can leave a negative balance on such a database. -/
theorem external_topup_preserve_nonneg (env : Env) (DB : Store)
    (hsub : ∀ x y, 0 ≤ x → env.arith.ge x y = true → 0 ≤ env.arith.sub x y)
    (hadd : ∀ x y, 0 ≤ x → 0 < y → 0 ≤ env.arith.add x y)
    (h : ∀ a ∈ DB.accounts, 0 ≤ a.Balance) :
    (∀ (recipient : RecipientDetails) (fromAccount : String) (amount : Decimal)
      (currency : String),
      ∀ a ∈ (ProcessExternalPayment env DB recipient fromAccount amount currency).store.accounts,
        0 ≤ a.Balance) ∧
    (∀ (fromAccount : String) (amount : Decimal) (currency : String),
      ∀ a ∈ (TopUpProcess env DB fromAccount amount currency).store.accounts,
        0 ≤ a.Balance) := by
  obtain ⟨⟨b, d, c, cp, cl, cm⟩, uuid, now, ar⟩ := env
  simp only at hsub hadd
  refine ⟨?_, ?_⟩
  · intro recipient fromAccount amount currency
    have hdeb : ∀ a ∈ (debitIfSufficient ar amount fromAccount DB.accounts).1, 0 ≤ a.Balance :=
      updateAccounts_nonneg _ _ _ h (fun a ha hc => by
        simp only [Bool.and_eq_true] at hc
        exact hsub _ _ (h a ha) hc.2)
    cases b <;> cases d <;> cases cp <;> cases cm <;>
      simp only [ProcessExternalPayment, Begin, Exec, CreatePayment, Commit] <;>
      split_ifs <;> first | exact h | exact hdeb
  · intro fromAccount amount currency
    by_cases hamt : amount ≤ 0
    · simpa [TopUpProcess, hamt] using h
    · have hcr : ∀ a ∈ (credit ar amount fromAccount DB.accounts).1, 0 ≤ a.Balance :=
        updateAccounts_nonneg _ _ _ h (fun a ha _ =>
          hadd _ _ (h a ha) (not_le.mp hamt))
      cases b <;> cases c <;> cases cp <;> cases cl <;> cases cm <;>
        simp only [TopUpProcess, hamt, if_false, Begin, Exec, CreatePayment, CreateLedgerEntry,
          Commit] <;>
        first | exact h | exact hcr

/-! ## External payments -/

/-- A conditional debit whose condition the database finds false on every row of the
account matches no row. -/
theorem countP_debitIfSufficient_eq_zero (arith : Arith) (rows : List Account) (id : String)
    (amount : Decimal)
    (h : ∀ a ∈ rows, a.AccountID = id → arith.ge a.Balance amount = false) :
    rows.countP (fun a => a.AccountID == id && arith.ge a.Balance amount) = 0 := by
  rw [List.countP_eq_zero]
  intro a ha
  simp only [Bool.and_eq_true, beq_iff_eq, not_and, Bool.not_eq_true]
  exact h a ha

/-- C4 (counterexample): on SQLite, account `A` holds 1000000000000000.00, all balances
are non-negative, and the amount 1000000000000000.01 is positive and strictly greater
than the balance of `A`; yet `ProcessExternalPayment` does not fail: it returns success,
leaves `A` at 0 and stores one Payment.  The database converts the text of the amount to
the double 1000000000000000 and finds `balance >= amount` true. -/
theorem external_amount_above_balance_accepted :
    (∀ a ∈ storeLarge.accounts, 0 ≤ a.Balance) ∧
      balance storeLarge "A" = some 1000000000000000 ∧
      (1000000000000000 : Decimal) < 1000000000000000.01 ∧
      (ProcessExternalPayment envSqlite storeLarge recipient0 "A" 1000000000000000.01
        "USD").result = .ok ⟨"p-1", recipient0, "success", "success"⟩ ∧
      balance (ProcessExternalPayment envSqlite storeLarge recipient0 "A" 1000000000000000.01
        "USD").store "A" = some 0 ∧
      (ProcessExternalPayment envSqlite storeLarge recipient0 "A" 1000000000000000.01
        "USD").store.payments.length = 1 := by
  have h : ¬ ((1000000000000000.01 : Decimal) ≤ 0) := by norm_num
  simp [h, ProcessExternalPayment, envSqlite, storeLarge, balance, Begin, Exec,
    debitIfSufficient, updateAccounts, CreatePayment, Commit, Faults.none, arithSqlite]
  norm_num

/-- C4 (amended): when no storage call fails and the database decides `balance >= amount`
on the rows of the source account as exact decimal comparison does, for every store, every
existing source account with a non-negative balance and every amount strictly greater
than that account's balance (the balance of every row that carries its identifier),
`ProcessExternalPayment` fails with the insufficient-balance error, the store (hence
the source balance) is unchanged and no Payment is created. -/
theorem external_insufficient_balance (uuid : String) (now : Nat) (arith : Arith) (DB : Store)
    (recipient : RecipientDetails) (fromAccount : String) (amount : Decimal)
    (currency : String) (b : Decimal)
    (hb : balance DB fromAccount = some b) (hnn : 0 ≤ b)
    (hlt : ∀ a ∈ DB.accounts, a.AccountID = fromAccount → a.Balance < amount)
    (hcmp : ∀ a ∈ DB.accounts, a.AccountID = fromAccount →
      arith.ge a.Balance amount = decide (a.Balance ≥ amount)) :
    (ProcessExternalPayment ⟨Faults.none, uuid, now, arith⟩ DB recipient fromAccount amount
        currency).result = .error "insufficient balance" ∧
      (ProcessExternalPayment ⟨Faults.none, uuid, now, arith⟩ DB recipient fromAccount amount
        currency).store = DB ∧
      balance (ProcessExternalPayment ⟨Faults.none, uuid, now, arith⟩ DB recipient fromAccount amount
        currency).store fromAccount = some b ∧
      (ProcessExternalPayment ⟨Faults.none, uuid, now, arith⟩ DB recipient fromAccount amount
        currency).store.payments = DB.payments := by
  have hpos : 0 < amount := by
    simp only [balance] at hb
    cases hf : DB.accounts.find? (fun a => a.AccountID == fromAccount) with
    | none => simp [hf] at hb
    | some a =>
      have hmem := List.mem_of_find?_eq_some hf
      have hp := List.find?_some hf
      simp only [hf, Option.map_some', Option.some.injEq] at hb
      simp only [beq_iff_eq] at hp
      have := hlt a hmem hp
      rw [hb] at this
      exact lt_of_le_of_lt hnn this
  rw [ProcessExternalPayment_noFaults _ _ _ _ _ _ _ _ hpos,
    if_pos (countP_debitIfSufficient_eq_zero _ _ _ _ (fun a ha hid => by
      rw [hcmp a ha hid]
      exact decide_eq_false (not_le.mpr (hlt a ha hid))))]
  exact ⟨rfl, rfl, hb, rfl⟩

/-- C4 (witness): on exact arithmetic with `A` = 1000.00, an external payment of 2000.00
is refused and changes nothing. -/
theorem external_insufficient_balance_witness :
    (ProcessExternalPayment ⟨Faults.none, "p-1", 0, Arith.exact⟩ storeAB recipient0 "A" 2000
        "USD").result = .error "insufficient balance" ∧
      (ProcessExternalPayment ⟨Faults.none, "p-1", 0, Arith.exact⟩ storeAB recipient0 "A" 2000
        "USD").store = storeAB ∧
      balance (ProcessExternalPayment ⟨Faults.none, "p-1", 0, Arith.exact⟩ storeAB recipient0 "A" 2000
        "USD").store "A" = some 1000 ∧
      (ProcessExternalPayment ⟨Faults.none, "p-1", 0, Arith.exact⟩ storeAB recipient0 "A" 2000
        "USD").store.payments = storeAB.payments :=
  external_insufficient_balance "p-1" 0 Arith.exact storeAB recipient0 "A" 2000 "USD" 1000
    (by simp [balance, storeAB]) (by norm_num)
    (by simp [storeAB]; norm_num) (by simp [storeAB, Arith.exact])

/-! ## Failures -/

/-- C5: whenever `ProcessInternalPayment`, `ProcessExternalPayment` or `TopUpProcess`
returns an error, whatever the storage layer did, the store after the call equals the
store before it (no balance changed, no Payment and no LedgerEntry created). -/
theorem failed_call_leaves_store (env : Env) (DB : Store) :
    (∀ (fromAccount toAccount : String) (amount : Decimal) (currency e : String),
      (ProcessInternalPayment env DB fromAccount toAccount amount currency).result = .error e →
      (ProcessInternalPayment env DB fromAccount toAccount amount currency).store = DB) ∧
    (∀ (recipient : RecipientDetails) (fromAccount : String) (amount : Decimal)
      (currency e : String),
      (ProcessExternalPayment env DB recipient fromAccount amount currency).result = .error e →
      (ProcessExternalPayment env DB recipient fromAccount amount currency).store = DB) ∧
    (∀ (fromAccount : String) (amount : Decimal) (currency e : String),
      (TopUpProcess env DB fromAccount amount currency).result = .error e →
      (TopUpProcess env DB fromAccount amount currency).store = DB) := by
  obtain ⟨⟨b, d, c, cp, cl, cm⟩, uuid, now, ar⟩ := env
  refine ⟨?_, ?_, ?_⟩
  · intro fromAccount toAccount amount currency e
    cases b <;> cases d <;> cases cp <;>
      simp only [ProcessInternalPayment, Begin, Exec, CreatePayment] <;>
      split_ifs <;> simp
  · intro recipient fromAccount amount currency e
    cases b <;> cases d <;> cases cp <;>
      simp only [ProcessExternalPayment, Begin, Exec, CreatePayment] <;>
      split_ifs <;> simp
  · intro fromAccount amount currency e
    cases b <;> cases cp <;> cases cl <;>
      simp only [TopUpProcess, Begin, Exec, CreatePayment, CreateLedgerEntry] <;>
      split_ifs <;> simp

/-- The step failures the engine does test for: once the unit of work has begun, a failing
debit, a failing Payment insert and a failing LedgerEntry insert each make the operation
return that error with the store unchanged. -/
theorem checked_step_failure_reported (env : Env) (DB : Store) (amount : Decimal)
    (e : String) (hpos : 0 < amount) (hbegin : env.faults.beginErr = Option.none) :
    (env.faults.debitErr = some e →
      (∀ (fromAccount toAccount currency : String),
        (ProcessInternalPayment env DB fromAccount toAccount amount currency).result =
            .error e ∧
          (ProcessInternalPayment env DB fromAccount toAccount amount currency).store = DB) ∧
      (∀ (recipient : RecipientDetails) (fromAccount currency : String),
        (ProcessExternalPayment env DB recipient fromAccount amount currency).result =
            .error e ∧
          (ProcessExternalPayment env DB recipient fromAccount amount currency).store = DB)) ∧
    (env.faults.debitErr = Option.none → env.faults.createPaymentErr = some e →
      ∀ (fromAccount toAccount currency : String) (b : Decimal),
        balance DB fromAccount = some b →
        (ProcessInternalPayment env DB fromAccount toAccount amount currency).result =
            .error e ∧
          (ProcessInternalPayment env DB fromAccount toAccount amount currency).store = DB) ∧
    (env.faults.createPaymentErr = some e →
      ∀ (fromAccount currency : String),
        (TopUpProcess env DB fromAccount amount currency).result = .error e ∧
          (TopUpProcess env DB fromAccount amount currency).store = DB) ∧
    (env.faults.createPaymentErr = Option.none → env.faults.createLedgerErr = some e →
      ∀ (fromAccount currency : String),
        (TopUpProcess env DB fromAccount amount currency).result = .error e ∧
          (TopUpProcess env DB fromAccount amount currency).store = DB) := by
  have hamt : ¬ amount ≤ 0 := not_le.mpr hpos
  refine ⟨fun hd => ⟨fun _ _ _ => ?_, fun _ _ _ => ?_⟩, fun hd hc fromAccount _ _ b hb => ?_,
    fun hc _ _ => ?_, fun hc hl _ _ => ?_⟩
  · simp [ProcessInternalPayment, hamt, Begin, hbegin, Exec, hd]
  · simp [ProcessExternalPayment, hamt, Begin, hbegin, Exec, hd]
  · have hrows := countP_pos_of_balance DB.accounts fromAccount b hb
    simp [ProcessInternalPayment, hamt, Begin, hbegin, Exec, hd, debitAny, updateAccounts,
      hrows, CreatePayment, hc]
  · simp [TopUpProcess, hamt, Begin, hbegin, CreatePayment, hc]
  · simp [TopUpProcess, hamt, Begin, hbegin, CreatePayment, hc, CreateLedgerEntry, hl]

/-- C5 (witness): a top-up of 0 on the store `A`, `B` fails and leaves the store as it
was; so do an internal and an external payment of 0. -/
theorem failed_call_leaves_store_witness :
    (ProcessInternalPayment env0 storeAB "A" "B" 0 "USD").store = storeAB ∧
      (ProcessExternalPayment env0 storeAB recipient0 "A" 0 "USD").store = storeAB ∧
      (TopUpProcess env0 storeAB "A" 0 "USD").store = storeAB :=
  ⟨(failed_call_leaves_store env0 storeAB).1 "A" "B" 0 "USD" "invalid amount"
      (by simp [ProcessInternalPayment]),
    (failed_call_leaves_store env0 storeAB).2.1 recipient0 "A" 0 "USD" "invalid amount"
      (by simp [ProcessExternalPayment]),
    (failed_call_leaves_store env0 storeAB).2.2 "A" 0 "USD" "invalid amount"
      (by simp [TopUpProcess])⟩

/-- C6 (failing input): on the store `A` = 1000.00, `B` = 500.00, (1) when `Commit` fails,
`ProcessInternalPayment` of 100.00 from `A` to `B` and `TopUpProcess` of 200.00 on `A` both
return success although nothing was stored; (2) when the credit `UPDATE` fails, the same
`ProcessInternalPayment` returns success with `A` debited to 900.00, `B` still at 500.00
and the Payment stored, and the same `TopUpProcess` returns success with `A` still at
1000.00 and the Payment and the LedgerEntry stored. -/
theorem step_failure_not_reported :
    ((ProcessInternalPayment envCommitFails storeAB "A" "B" 100 "USD").result =
        .ok (internalRow envCommitFails storeAB "A" "B" 100 "USD") ∧
      (ProcessInternalPayment envCommitFails storeAB "A" "B" 100 "USD").store = storeAB ∧
      (TopUpProcess envCommitFails storeAB "A" 200 "USD").result =
        .ok { PaymentID := "p-1", Status := "success" } ∧
      (TopUpProcess envCommitFails storeAB "A" 200 "USD").store = storeAB) ∧
    ((ProcessInternalPayment envCreditFails storeAB "A" "B" 100 "USD").result =
        .ok (internalRow envCreditFails storeAB "A" "B" 100 "USD") ∧
      balance (ProcessInternalPayment envCreditFails storeAB "A" "B" 100 "USD").store "A" =
        some 900 ∧
      balance (ProcessInternalPayment envCreditFails storeAB "A" "B" 100 "USD").store "B" =
        some 500 ∧
      (ProcessInternalPayment envCreditFails storeAB "A" "B" 100 "USD").store.payments =
        [internalRow envCreditFails storeAB "A" "B" 100 "USD"] ∧
      (TopUpProcess envCreditFails storeAB "A" 200 "USD").result =
        .ok { PaymentID := "p-1", Status := "success" } ∧
      balance (TopUpProcess envCreditFails storeAB "A" 200 "USD").store "A" = some 1000 ∧
      (TopUpProcess envCreditFails storeAB "A" 200 "USD").store.payments =
        [topUpRow envCreditFails storeAB "A" 200 "USD"] ∧
      (TopUpProcess envCreditFails storeAB "A" 200 "USD").store.ledger_entries =
        [topUpLedgerRow envCreditFails storeAB "A" 200]) := by
  have h1 : ¬ ((100 : Decimal) ≤ 0) := by norm_num
  have h2 : ¬ ((200 : Decimal) ≤ 0) := by norm_num
  refine ⟨?_, ?_⟩
  · simp [h1, h2, ProcessInternalPayment, TopUpProcess, envCommitFails, storeAB, Begin, Exec,
      debitAny, credit, updateAccounts, CreatePayment, CreateLedgerEntry, Commit, Faults.none,
      internalRow, Arith.exact]
  · simp [h1, h2, ProcessInternalPayment, TopUpProcess, envCreditFails, storeAB, balance, Begin,
      Exec, debitAny, credit, updateAccounts, CreatePayment, CreateLedgerEntry, Commit,
      Faults.none, internalRow, topUpRow, topUpLedgerRow, Arith.exact]
    norm_num

/-! ## Unknown accounts -/

/-- An `UPDATE` keyed on an identifier that no row carries matches no row. -/
theorem countP_eq_zero_of_balance_none (cond : Account → Bool) (rows : List Account)
    (id : String) (h : (rows.find? (fun a => a.AccountID == id)).map (·.Balance) = none) :
    rows.countP (fun a => a.AccountID == id && cond a) = 0 := by
  rw [List.countP_eq_zero]
  intro a ha
  have hnone : rows.find? (fun a => a.AccountID == id) = none := by
    simpa using h
  have := List.find?_eq_none.mp hnone a ha
  simp only [Bool.and_eq_true, not_and]
  intro hid
  exact absurd hid this

/-- C7 (counterexample): on the store `A` = 1000.00, `B` = 500.00, where no account
`missing` exists, (1) `TopUpProcess` on `missing` returns success and stores a Payment and a
LedgerEntry; (2) `ProcessInternalPayment` from `A` to `missing` returns success, debits `A`
to 900.00 and stores a Payment; (3) `ProcessExternalPayment` from `missing` fails, with the
insufficient-balance error. -/
theorem unknown_account_not_reported :
    balance storeAB "missing" = none ∧
    ((TopUpProcess env0 storeAB "missing" 100 "USD").result =
        .ok { PaymentID := "p-1", Status := "success" } ∧
      (TopUpProcess env0 storeAB "missing" 100 "USD").store.payments =
        [topUpRow env0 storeAB "missing" 100 "USD"] ∧
      (TopUpProcess env0 storeAB "missing" 100 "USD").store.ledger_entries =
        [topUpLedgerRow env0 storeAB "missing" 100]) ∧
    ((ProcessInternalPayment env0 storeAB "A" "missing" 100 "USD").result =
        .ok (internalRow env0 storeAB "A" "missing" 100 "USD") ∧
      balance (ProcessInternalPayment env0 storeAB "A" "missing" 100 "USD").store "A" =
        some 900 ∧
      (ProcessInternalPayment env0 storeAB "A" "missing" 100 "USD").store.payments =
        [internalRow env0 storeAB "A" "missing" 100 "USD"]) ∧
    (ProcessExternalPayment env0 storeAB recipient0 "missing" 100 "USD").result =
      .error "insufficient balance" := by
  have h1 : ¬ ((100 : Decimal) ≤ 0) := by norm_num
  simp [h1, ProcessInternalPayment, ProcessExternalPayment, TopUpProcess, env0, storeAB,
    balance, Begin, Exec, debitAny, debitIfSufficient, credit, updateAccounts, CreatePayment,
    CreateLedgerEntry, Commit, Faults.none, internalRow, topUpRow, topUpLedgerRow, Arith.exact]
  norm_num

/-- C7 (amended): when no storage call fails and the amount is positive, if the source
account identifier does not resolve to an existing account, `ProcessInternalPayment` and
`ProcessExternalPayment` fail with the insufficient-balance error and leave the store
unchanged (no balance changed, no Payment or LedgerEntry created). -/
theorem unknown_source_rejected (uuid : String) (now : Nat) (arith : Arith) (DB : Store)
    (fromAccount : String) (amount : Decimal) (currency : String) (hpos : 0 < amount)
    (hmiss : balance DB fromAccount = none) :
    (∀ toAccount : String,
      (ProcessInternalPayment ⟨Faults.none, uuid, now, arith⟩ DB fromAccount toAccount amount
        currency).result = .error "insufficient balance" ∧
      (ProcessInternalPayment ⟨Faults.none, uuid, now, arith⟩ DB fromAccount toAccount amount
        currency).store = DB) ∧
    (∀ recipient : RecipientDetails,
      (ProcessExternalPayment ⟨Faults.none, uuid, now, arith⟩ DB recipient fromAccount amount
        currency).result = .error "insufficient balance" ∧
      (ProcessExternalPayment ⟨Faults.none, uuid, now, arith⟩ DB recipient fromAccount amount
        currency).store = DB) := by
  have h0 := countP_eq_zero_of_balance_none (fun _ => true) DB.accounts fromAccount hmiss
  simp only [Bool.and_true] at h0
  refine ⟨fun toAccount => ?_, fun recipient => ?_⟩
  · rw [ProcessInternalPayment_noFaults _ _ _ _ _ _ _ _ hpos, if_pos h0]
    exact ⟨rfl, rfl⟩
  · rw [ProcessExternalPayment_noFaults _ _ _ _ _ _ _ _ hpos,
      if_pos (countP_eq_zero_of_balance_none _ DB.accounts fromAccount hmiss)]
    exact ⟨rfl, rfl⟩

/-- C7 (witness): payments of 100.00 from the unknown account `missing`. -/
theorem unknown_source_rejected_witness :
    (∀ toAccount : String,
      (ProcessInternalPayment ⟨Faults.none, "p-1", 0, Arith.exact⟩ storeAB "missing" toAccount 100
        "USD").result = .error "insufficient balance" ∧
      (ProcessInternalPayment ⟨Faults.none, "p-1", 0, Arith.exact⟩ storeAB "missing" toAccount 100
        "USD").store = storeAB) ∧
    (∀ recipient : RecipientDetails,
      (ProcessExternalPayment ⟨Faults.none, "p-1", 0, Arith.exact⟩ storeAB recipient "missing" 100
        "USD").result = .error "insufficient balance" ∧
      (ProcessExternalPayment ⟨Faults.none, "p-1", 0, Arith.exact⟩ storeAB recipient "missing" 100
        "USD").store = storeAB) :=
  unknown_source_rejected "p-1" 0 Arith.exact storeAB "missing" 100 "USD" (by norm_num)
    (by simp [balance, storeAB])

/-! ## Amount validation -/

/-- C8: for every store, every account arguments and every amount `≤ 0`, each of the three
operations returns the invalid-amount error, issues no storage call at all (in particular
begins no unit of work, whatever the storage layer would have answered) and leaves the
store unchanged. -/
theorem nonpositive_amount_rejected (env : Env) (DB : Store) (amount : Decimal)
    (hamt : amount ≤ 0) :
    (∀ (fromAccount toAccount currency : String),
      (ProcessInternalPayment env DB fromAccount toAccount amount currency).result =
          .error "invalid amount" ∧
        (ProcessInternalPayment env DB fromAccount toAccount amount currency).calls = [] ∧
        (ProcessInternalPayment env DB fromAccount toAccount amount currency).store = DB) ∧
    (∀ (recipient : RecipientDetails) (fromAccount currency : String),
      (ProcessExternalPayment env DB recipient fromAccount amount currency).result =
          .error "invalid amount" ∧
        (ProcessExternalPayment env DB recipient fromAccount amount currency).calls = [] ∧
        (ProcessExternalPayment env DB recipient fromAccount amount currency).store = DB) ∧
    (∀ (fromAccount currency : String),
      (TopUpProcess env DB fromAccount amount currency).result = .error "invalid amount" ∧
        (TopUpProcess env DB fromAccount amount currency).calls = [] ∧
        (TopUpProcess env DB fromAccount amount currency).store = DB) := by
  refine ⟨fun _ _ _ => ?_, fun _ _ _ => ?_, fun _ _ => ?_⟩
  · simp [ProcessInternalPayment, hamt]
  · simp [ProcessExternalPayment, hamt]
  · simp [TopUpProcess, hamt]

/-- C8 (witness): the amount -100.00 of the test suite, on a storage layer whose `Commit`
would fail. -/
theorem nonpositive_amount_rejected_witness :
    (TopUpProcess envCommitFails storeAB "A" (-100) "USD").result = .error "invalid amount" ∧
      (TopUpProcess envCommitFails storeAB "A" (-100) "USD").calls = [] ∧
      (TopUpProcess envCommitFails storeAB "A" (-100) "USD").store = storeAB :=
  (nonpositive_amount_rejected envCommitFails storeAB (-100) (by norm_num)).2.2 "A" "USD"

/-! ## Success postconditions -/

/-- C9 (counterexample): on SQLite, with no storage call failing, two top-ups of a positive
amount to an existing account that do not add exactly the amount.  A top-up of 0.20 to
`B` (0.10) leaves `B` at 0.30000000000000004, which is not 0.10 plus 0.20.  A top-up of
1.788871137 to `B` (0) stores a Payment and a LedgerEntry whose amount is
1.7888711370000001, not the amount given. -/
theorem topup_not_exact :
    (balance storeCents "B" = some 0.1 ∧
      (TopUpProcess envSqlite storeCents "B" 0.2 "USD").result = .ok ⟨"p-1", "success"⟩ ∧
      balance (TopUpProcess envSqlite storeCents "B" 0.2 "USD").store "B" =
        some 0.30000000000000004 ∧
      (0.30000000000000004 : Decimal) ≠ 0.1 + 0.2) ∧
    (balance storeWhole "B" = some 0 ∧
      (TopUpProcess envSqlite storeWhole "B" 1.788871137 "USD").result =
        .ok ⟨"p-1", "success"⟩ ∧
      (TopUpProcess envSqlite storeWhole "B" 1.788871137 "USD").store.payments.map
        (·.Amount) = [1.7888711370000001] ∧
      (TopUpProcess envSqlite storeWhole "B" 1.788871137 "USD").store.ledger_entries.map
        (·.Amount) = [1.7888711370000001] ∧
      (1.7888711370000001 : Decimal) ≠ 1.788871137) := by
  constructor
  · have h : ¬ ((0.2 : Decimal) ≤ 0) := by norm_num
    simp [h, TopUpProcess, envSqlite, storeCents, balance, Begin, Exec, credit,
      updateAccounts, CreatePayment, CreateLedgerEntry, Commit, Faults.none, arithSqlite]
    norm_num
  · have h : ¬ ((1.788871137 : Decimal) ≤ 0) := by norm_num
    simp [h, TopUpProcess, envSqlite, storeWhole, balance, Begin, Exec, credit,
      updateAccounts, CreatePayment, CreateLedgerEntry, Commit, Faults.none, arithSqlite]
    norm_num

/-- C9 (amended): when no storage call fails, the database computes `balance + amount` on
the balance of the account exactly and its `numeric(18,2)` columns return the amount as it
was written, for every existing account and every amount `> 0`, `TopUpProcess` returns
success with status `success`, raises the balance of the account by exactly `amount`,
appends exactly one Payment (status `completed`, source and destination both the account,
the given amount) and exactly one LedgerEntry (that account, that amount, the identifier of
that Payment), and returns the identifier of that Payment. -/
theorem topup_succeeds (uuid : String) (now : Nat) (arith : Arith) (DB : Store) (account : String)
    (amount : Decimal) (currency : String) (b : Decimal) (hpos : 0 < amount)
    (hb : balance DB account = some b)
    (hadd : arith.add b amount = b + amount) (hstored : arith.stored amount = amount) :
    balance (TopUpProcess ⟨Faults.none, uuid, now, arith⟩ DB account amount currency).store account =
        some (b + amount) ∧
      ∃ (p : Payment) (l : LedgerEntry),
        (TopUpProcess ⟨Faults.none, uuid, now, arith⟩ DB account amount currency).result =
          .ok { PaymentID := p.PaymentID, Status := "success" } ∧
        (TopUpProcess ⟨Faults.none, uuid, now, arith⟩ DB account amount currency).store.payments =
          DB.payments ++ [p] ∧
        (TopUpProcess ⟨Faults.none, uuid, now, arith⟩ DB account amount
          currency).store.ledger_entries = DB.ledger_entries ++ [l] ∧
        p.Status = .Completed ∧ p.FromAccount = account ∧ p.ToAccount = account ∧
        p.Amount = amount ∧
        l.AccountID = account ∧ l.Amount = amount ∧ l.PaymentID = p.PaymentID := by
  rw [TopUpProcess_noFaults _ _ _ _ _ _ _ hpos]
  refine ⟨?_, topUpRow ⟨Faults.none, uuid, now, arith⟩ DB account amount currency,
    topUpLedgerRow ⟨Faults.none, uuid, now, arith⟩ DB account amount,
    rfl, rfl, rfl, rfl, rfl, rfl, hstored, rfl, hstored, rfl⟩
  simp only [balance, credit] at hb ⊢
  rw [balance_update_same, hb]
  simp only [Option.map_some', hadd]

/-- C9 (witness): on exact arithmetic, balance 500.00, top-up 200.00 gives 700.00. -/
theorem topup_succeeds_witness :
    balance (TopUpProcess ⟨Faults.none, "p-1", 0, Arith.exact⟩ storeAB "B" 200 "USD").store "B" =
        some (500 + 200) ∧
      ∃ (p : Payment) (l : LedgerEntry),
        (TopUpProcess ⟨Faults.none, "p-1", 0, Arith.exact⟩ storeAB "B" 200 "USD").result =
          .ok { PaymentID := p.PaymentID, Status := "success" } ∧
        (TopUpProcess ⟨Faults.none, "p-1", 0, Arith.exact⟩ storeAB "B" 200 "USD").store.payments =
          storeAB.payments ++ [p] ∧
        (TopUpProcess ⟨Faults.none, "p-1", 0, Arith.exact⟩ storeAB "B" 200 "USD").store.ledger_entries =
          storeAB.ledger_entries ++ [l] ∧
        p.Status = .Completed ∧ p.FromAccount = "B" ∧ p.ToAccount = "B" ∧
        p.Amount = 200 ∧
        l.AccountID = "B" ∧ l.Amount = 200 ∧ l.PaymentID = p.PaymentID :=
  topup_succeeds "p-1" 0 Arith.exact storeAB "B" 200 "USD" 500 (by norm_num)
    (by simp [balance, storeAB]) rfl rfl

/-- A conditional debit whose condition the database finds true on the first row of the
account matches that row and sets its balance to the difference the database computes. -/
theorem balance_debitIfSufficient (arith : Arith) (rows : List Account) (id : String)
    (amount b : Decimal)
    (hb : (rows.find? (fun a => a.AccountID == id)).map (·.Balance) = some b)
    (hge : arith.ge b amount = true) :
    rows.countP (fun a => a.AccountID == id && arith.ge a.Balance amount) ≠ 0 ∧
      ((debitIfSufficient arith amount id rows).1.find? (fun a => a.AccountID == id)).map
        (·.Balance) = some (arith.sub b amount) := by
  cases hf : rows.find? (fun a => a.AccountID == id) with
  | none => simp [hf] at hb
  | some a =>
    have hmem := List.mem_of_find?_eq_some hf
    have hp := List.find?_some hf
    simp only [hf, Option.map_some', Option.some.injEq] at hb
    have hc : (a.AccountID == id && arith.ge a.Balance amount) = true := by
      simp only [Bool.and_eq_true]
      exact ⟨hp, by rw [hb]; exact hge⟩
    constructor
    · exact Nat.pos_iff_ne_zero.mp (List.countP_pos_iff.mpr ⟨a, hmem, hc⟩)
    · rw [debitIfSufficient, find?_updateAccounts, hf]
      simp only [Option.map_some', hc, if_true]
      rw [hb]

/-- C10 (counterexample): on SQLite, with no storage call failing, three external payments
of a positive amount within the balance.  A payment of 0.10 from `A` (0.30) leaves `A` at
0.19999999999999998, which is not 0.30 minus 0.10.  A payment of the whole balance of `A`
(1.788871137) does not succeed: it fails with the insufficient-balance error.  A payment
of 1.788871137 from `A` (1000.00) stores a Payment whose amount is 1.7888711370000001, not
the amount given. -/
theorem external_not_exact :
    (balance storeCents "A" = some 0.3 ∧ (0.1 : Decimal) ≤ 0.3 ∧
      (ProcessExternalPayment envSqlite storeCents recipient0 "A" 0.1 "USD").result =
        .ok ⟨"p-1", recipient0, "success", "success"⟩ ∧
      balance (ProcessExternalPayment envSqlite storeCents recipient0 "A" 0.1 "USD").store "A" =
        some 0.19999999999999998 ∧
      (0.19999999999999998 : Decimal) ≠ 0.3 - 0.1) ∧
    (balance storeWhole "A" = some 1.788871137 ∧
      (ProcessExternalPayment envSqlite storeWhole recipient0 "A" 1.788871137 "USD").result =
        .error "insufficient balance") ∧
    (balance storeAB "A" = some 1000 ∧ (1.788871137 : Decimal) ≤ 1000 ∧
      (ProcessExternalPayment envSqlite storeAB recipient0 "A" 1.788871137 "USD").result =
        .ok ⟨"p-1", recipient0, "success", "success"⟩ ∧
      (ProcessExternalPayment envSqlite storeAB recipient0 "A" 1.788871137
        "USD").store.payments.map (·.Amount) = [1.7888711370000001] ∧
      (1.7888711370000001 : Decimal) ≠ 1.788871137) := by
  refine ⟨?_, ?_, ?_⟩
  · have h : ¬ ((0.1 : Decimal) ≤ 0) := by norm_num
    simp [h, ProcessExternalPayment, envSqlite, storeCents, balance, Begin, Exec,
      debitIfSufficient, updateAccounts, CreatePayment, Commit, Faults.none, arithSqlite]
    norm_num
  · have h : ¬ ((1.788871137 : Decimal) ≤ 0) := by norm_num
    simp [h, ProcessExternalPayment, envSqlite, storeWhole, balance, Begin, Exec,
      debitIfSufficient, updateAccounts, CreatePayment, Commit, Faults.none, arithSqlite]
    norm_num
  · have h : ¬ ((1.788871137 : Decimal) ≤ 0) := by norm_num
    simp [h, ProcessExternalPayment, envSqlite, storeAB, balance, Begin, Exec,
      debitIfSufficient, updateAccounts, CreatePayment, Commit, Faults.none, arithSqlite]
    norm_num

/-- C10 (amended): when no storage call fails, the database decides `balance >= amount` and
computes `balance - amount` on the source balance exactly, and its `numeric(18,2)` columns
return the amount as it was written, for every existing source account and every amount
with `0 < amount ≤ balance` (the balance itself included), `ProcessExternalPayment`
succeeds, lowers the source balance by exactly `amount`, appends exactly one Payment with
status `completed`, source and destination both the source account, the given currency and
amount and description `External Payment`, and returns that Payment's identifier, the
recipient details passed in, and `success` as Status and as ProviderStatus. -/
theorem external_succeeds (uuid : String) (now : Nat) (arith : Arith) (DB : Store)
    (recipient : RecipientDetails) (fromAccount : String) (amount : Decimal)
    (currency : String) (b : Decimal) (hpos : 0 < amount)
    (hb : balance DB fromAccount = some b) (hle : amount ≤ b)
    (hge : arith.ge b amount = decide (b ≥ amount))
    (hsub : arith.sub b amount = b - amount) (hstored : arith.stored amount = amount) :
    balance (ProcessExternalPayment ⟨Faults.none, uuid, now, arith⟩ DB recipient fromAccount amount
        currency).store fromAccount = some (b - amount) ∧
      ∃ p : Payment,
        (ProcessExternalPayment ⟨Faults.none, uuid, now, arith⟩ DB recipient fromAccount amount
          currency).result =
          .ok { PaymentID := p.PaymentID, Recipient := recipient, Status := "success",
                ProviderStatus := "success" } ∧
        (ProcessExternalPayment ⟨Faults.none, uuid, now, arith⟩ DB recipient fromAccount amount
          currency).store.payments = DB.payments ++ [p] ∧
        p.Status = .Completed ∧ p.FromAccount = fromAccount ∧ p.ToAccount = fromAccount ∧
        p.Currency = currency ∧ p.Amount = amount ∧ p.Description = "External Payment" := by
  obtain ⟨hrows, hbal⟩ := balance_debitIfSufficient arith DB.accounts fromAccount amount b hb
    (by rw [hge]; exact decide_eq_true hle)
  rw [ProcessExternalPayment_noFaults _ _ _ _ _ _ _ _ hpos, if_neg hrows]
  rw [hsub] at hbal
  exact ⟨hbal, externalRow ⟨Faults.none, uuid, now, arith⟩ DB fromAccount amount currency,
    rfl, rfl, rfl, rfl, rfl, rfl, hstored, rfl⟩

/-- C10 (witness): on exact arithmetic with `A` = 1000.00, an external payment of the whole
balance leaves `A` at 1000.00 - 1000.00. -/
theorem external_succeeds_witness :
    balance (ProcessExternalPayment ⟨Faults.none, "p-1", 0, Arith.exact⟩ storeAB recipient0 "A" 1000
        "USD").store "A" = some (1000 - 1000) ∧
      ∃ p : Payment,
        (ProcessExternalPayment ⟨Faults.none, "p-1", 0, Arith.exact⟩ storeAB recipient0 "A" 1000
          "USD").result =
          .ok { PaymentID := p.PaymentID, Recipient := recipient0, Status := "success",
                ProviderStatus := "success" } ∧
        (ProcessExternalPayment ⟨Faults.none, "p-1", 0, Arith.exact⟩ storeAB recipient0 "A" 1000
          "USD").store.payments = storeAB.payments ++ [p] ∧
        p.Status = .Completed ∧ p.FromAccount = "A" ∧ p.ToAccount = "A" ∧
        p.Currency = "USD" ∧ p.Amount = 1000 ∧ p.Description = "External Payment" :=
  external_succeeds "p-1" 0 Arith.exact storeAB recipient0 "A" 1000 "USD" 1000 (by norm_num)
    (by simp [balance, storeAB]) (le_refl _) rfl rfl rfl

/-! ## Records written by the engine -/

/-- C11 (counterexample): two calls of `ProcessInternalPayment` that return a Payment not
equal to a stored one.  On a storage layer whose commit fails, the transfer of 100.00 from
`A` to `B` returns a Payment and the store holds no Payment.  On SQLite, with no storage
call failing, the transfer of 1.788871137 from `A` (1000.00) to `B` returns a Payment
whose amount is 1.788871137, while the one Payment stored has amount 1.7888711370000001. -/
theorem internal_payment_not_as_returned :
    ((∃ p, (ProcessInternalPayment envCommitFails storeAB "A" "B" 100 "USD").result = .ok p) ∧
      (ProcessInternalPayment envCommitFails storeAB "A" "B" 100 "USD").store.payments = []) ∧
    ((ProcessInternalPayment envSqlite storeAB "A" "B" 1.788871137 "USD").result =
        .ok { internalRow envSqlite storeAB "A" "B" 1.788871137 "USD" with
              Amount := 1.788871137 } ∧
      (ProcessInternalPayment envSqlite storeAB "A" "B" 1.788871137 "USD").store.payments =
        [internalRow envSqlite storeAB "A" "B" 1.788871137 "USD"] ∧
      (internalRow envSqlite storeAB "A" "B" 1.788871137 "USD").Amount =
        1.7888711370000001 ∧
      (1.7888711370000001 : Decimal) ≠ 1.788871137) := by
  constructor
  · have h : ¬ ((100 : Decimal) ≤ 0) := by norm_num
    simp [h, ProcessInternalPayment, envCommitFails, storeAB, Begin, Exec, debitAny, credit,
      updateAccounts, CreatePayment, Commit, Faults.none, Arith.exact]
  · have h : ¬ ((1.788871137 : Decimal) ≤ 0) := by norm_num
    simp [h, ProcessInternalPayment, envSqlite, storeAB, Begin, Exec, debitAny, credit,
      updateAccounts, CreatePayment, Commit, Faults.none, internalRow, arithSqlite]
    norm_num

/-- C11 (amended): every `ProcessInternalPayment(from, to, amount, currency)` that returns
a Payment, whose commit did not fail and whose amount the `numeric(18,2)` column returns
as it was written, appends exactly one Payment to the store, with status `pending`,
FromAccount = from, ToAccount = to, Currency = currency and Amount = amount, and the
Payment returned to the caller is that stored Payment. -/
theorem internal_payment_recorded (env : Env) (DB : Store) (fromAccount toAccount : String)
    (amount : Decimal) (currency : String) (p : Payment)
    (hcommit : env.faults.commitErr = Option.none)
    (hstored : env.arith.stored amount = amount)
    (hok : (ProcessInternalPayment env DB fromAccount toAccount amount currency).result =
      .ok p) :
    (ProcessInternalPayment env DB fromAccount toAccount amount currency).store.payments =
        DB.payments ++ [p] ∧
      p.Status = .Pending ∧ p.FromAccount = fromAccount ∧ p.ToAccount = toAccount ∧
      p.Currency = currency ∧ p.Amount = amount := by
  obtain ⟨⟨b, d, c, cp, cl, cm⟩, uuid, now, ar⟩ := env
  simp only at hcommit hstored
  subst hcommit
  revert hok
  cases b <;> cases d <;> cases c <;> cases cp <;>
    simp only [ProcessInternalPayment, Begin, Exec, CreatePayment, Commit] <;>
    split_ifs <;> simp <;> rintro rfl <;> simp [hstored]

/-- C11 (witness): the transfer of 100.00 from `A` to `B` of the test suite, on exact
arithmetic. -/
theorem internal_payment_recorded_witness :
    (ProcessInternalPayment env0 storeAB "A" "B" 100 "USD").store.payments =
        storeAB.payments ++ [internalRow env0 storeAB "A" "B" 100 "USD"] ∧
      (internalRow env0 storeAB "A" "B" 100 "USD").Status = .Pending ∧
      (internalRow env0 storeAB "A" "B" 100 "USD").FromAccount = "A" ∧
      (internalRow env0 storeAB "A" "B" 100 "USD").ToAccount = "B" ∧
      (internalRow env0 storeAB "A" "B" 100 "USD").Currency = "USD" ∧
      (internalRow env0 storeAB "A" "B" 100 "USD").Amount = 100 :=
  internal_payment_recorded env0 storeAB "A" "B" 100 "USD"
    (internalRow env0 storeAB "A" "B" 100 "USD") rfl rfl
    (by
      have h : ¬ ((100 : Decimal) ≤ 0) := by norm_num
      simp [h, ProcessInternalPayment, env0, storeAB, Begin, Exec, debitAny, credit,
        updateAccounts, CreatePayment, Commit, Faults.none, internalRow, Arith.exact])

/-- C12 (counterexample): in the scenario `A` = 1000.00, `B` = 500.00, the transfer of
100.00 from `A` to `B` succeeds and stores exactly one Payment, whose status is `pending`
and not `completed`.  On a storage layer whose commit fails the same transfer returns a
Payment and stores none. -/
theorem internal_payment_status_not_completed :
    ((∃ p, (ProcessInternalPayment env0 storeAB "A" "B" 100 "USD").result = .ok p ∧
      (ProcessInternalPayment env0 storeAB "A" "B" 100 "USD").store.payments = [p] ∧
      p.Status = .Pending) ∧
    ¬ ∃ p, (ProcessInternalPayment env0 storeAB "A" "B" 100 "USD").store.payments = [p] ∧
      p.Status = .Completed) ∧
    ((∃ p, (ProcessInternalPayment envCommitFails storeAB "A" "B" 100 "USD").result = .ok p) ∧
      (ProcessInternalPayment envCommitFails storeAB "A" "B" 100 "USD").store.payments = []) := by
  have h : ¬ ((100 : Decimal) ≤ 0) := by norm_num
  constructor
  · simp [h, ProcessInternalPayment, env0, storeAB, Begin, Exec, debitAny, credit,
      updateAccounts, CreatePayment, Commit, Faults.none, Arith.exact]
  · simp [h, ProcessInternalPayment, envCommitFails, storeAB, Begin, Exec, debitAny, credit,
      updateAccounts, CreatePayment, Commit, Faults.none, Arith.exact]

/-- C12 (amended): every `ProcessInternalPayment` that returns a Payment and whose commit
did not fail creates exactly one Payment, and its status is `pending`, neither `completed`
nor `failed`. -/
theorem internal_payment_status_pending (env : Env) (DB : Store)
    (fromAccount toAccount : String) (amount : Decimal) (currency : String) (p : Payment)
    (hcommit : env.faults.commitErr = Option.none)
    (hok : (ProcessInternalPayment env DB fromAccount toAccount amount currency).result =
      .ok p) :
    ∃ q, (ProcessInternalPayment env DB fromAccount toAccount amount currency).store.payments =
        DB.payments ++ [q] ∧
      q.Status = .Pending ∧ q.Status ≠ .Completed ∧ q.Status ≠ .Failed := by
  obtain ⟨⟨b, d, c, cp, cl, cm⟩, uuid, now, ar⟩ := env
  simp only at hcommit
  subst hcommit
  revert hok
  cases b <;> cases d <;> cases c <;> cases cp <;>
    simp only [ProcessInternalPayment, Begin, Exec, CreatePayment, Commit] <;>
    split_ifs <;> simp

/-- C12 (witness): the scenario `A` = 1000.00, `B` = 500.00, transfer of 100.00. -/
theorem internal_payment_status_pending_witness :
    ∃ q, (ProcessInternalPayment env0 storeAB "A" "B" 100 "USD").store.payments =
        storeAB.payments ++ [q] ∧
      q.Status = .Pending ∧ q.Status ≠ .Completed ∧ q.Status ≠ .Failed :=
  internal_payment_status_pending env0 storeAB "A" "B" 100 "USD"
    (internalRow env0 storeAB "A" "B" 100 "USD") rfl
    (by
      have h : ¬ ((100 : Decimal) ≤ 0) := by norm_num
      simp [h, ProcessInternalPayment, env0, storeAB, Begin, Exec, debitAny, credit,
        updateAccounts, CreatePayment, Commit, Faults.none, internalRow, Arith.exact])

/-- Whatever the storage layer does, `ProcessInternalPayment` and `ProcessExternalPayment`,
successful or failed, leave the LedgerEntry records as they were, and so does a
`TopUpProcess` that returns an error; a `TopUpProcess` that returns success and whose
commit did not fail adds exactly one LedgerEntry, for the topped-up account, the amount as
the column stores it, and the Payment it returns. -/
theorem ledger_only_for_topups (env : Env) (DB : Store) :
    (∀ (fromAccount toAccount : String) (amount : Decimal) (currency : String),
      (ProcessInternalPayment env DB fromAccount toAccount amount
        currency).store.ledger_entries = DB.ledger_entries) ∧
    (∀ (recipient : RecipientDetails) (fromAccount : String) (amount : Decimal)
      (currency : String),
      (ProcessExternalPayment env DB recipient fromAccount amount
        currency).store.ledger_entries = DB.ledger_entries) ∧
    (∀ (fromAccount : String) (amount : Decimal) (currency e : String),
      (TopUpProcess env DB fromAccount amount currency).result = .error e →
      (TopUpProcess env DB fromAccount amount currency).store.ledger_entries =
        DB.ledger_entries) ∧
    (∀ (fromAccount : String) (amount : Decimal) (currency : String) (r : TopUpResponse),
      env.faults.commitErr = Option.none →
      (TopUpProcess env DB fromAccount amount currency).result = .ok r →
      ∃ l, (TopUpProcess env DB fromAccount amount currency).store.ledger_entries =
          DB.ledger_entries ++ [l] ∧
        l.AccountID = fromAccount ∧ l.Amount = env.arith.stored amount ∧
        l.PaymentID = r.PaymentID) := by
  obtain ⟨⟨b, d, c, cp, cl, cm⟩, uuid, now, ar⟩ := env
  refine ⟨?_, ?_, ?_, ?_⟩
  · intro fromAccount toAccount amount currency
    cases b <;> cases d <;> cases c <;> cases cp <;> cases cm <;>
      simp only [ProcessInternalPayment, Begin, Exec, CreatePayment, Commit] <;>
      split_ifs <;> rfl
  · intro recipient fromAccount amount currency
    cases b <;> cases d <;> cases cp <;> cases cm <;>
      simp only [ProcessExternalPayment, Begin, Exec, CreatePayment, Commit] <;>
      split_ifs <;> rfl
  · intro fromAccount amount currency e
    cases b <;> cases cp <;> cases cl <;>
      simp only [TopUpProcess, Begin, Exec, CreatePayment, CreateLedgerEntry] <;>
      split_ifs <;> simp
  · intro fromAccount amount currency r hcommit
    simp only at hcommit
    subst hcommit
    cases b <;> cases c <;> cases cp <;> cases cl <;>
      simp only [TopUpProcess, Begin, Exec, CreatePayment, CreateLedgerEntry, Commit] <;>
      split_ifs <;> simp <;> rintro rfl <;> simp

/-- C18 (failing input): on a storage layer whose commit fails, `TopUpProcess` of 200.00 on
`B` returns success, and the store holds no LedgerEntry afterwards: a successful top-up
that adds none. -/
theorem topup_success_without_ledger_entry :
    (TopUpProcess envCommitFails storeAB "B" 200 "USD").result = .ok ⟨"p-1", "success"⟩ ∧
      storeAB.ledger_entries = [] ∧
      (TopUpProcess envCommitFails storeAB "B" 200 "USD").store.ledger_entries = [] ∧
      (TopUpProcess envCommitFails storeAB "B" 200 "USD").store = storeAB := by
  have h : ¬ ((200 : Decimal) ≤ 0) := by norm_num
  simp [h, TopUpProcess, envCommitFails, storeAB, Begin, Exec, credit, updateAccounts,
    CreatePayment, CreateLedgerEntry, Commit, Faults.none, Arith.exact]

/-- C19 (failing input): `A` = 1000.00; two `ProcessInternalPayment` calls each debit
600.00 from `A` (600.00 ≤ 1000.00, 600.00 + 600.00 > 1000.00), the second running once the
first has committed: both return a Payment and `A` ends at -200.00. -/
theorem two_internal_debits_both_succeed :
    balance storeAB "A" = some 1000 ∧ (600 : Decimal) ≤ 1000 ∧ (1000 : Decimal) < 600 + 600 ∧
    (ProcessInternalPayment env0 storeAB "A" "B" 600 "USD").result =
      .ok (internalRow env0 storeAB "A" "B" 600 "USD") ∧
    (ProcessInternalPayment env1 (ProcessInternalPayment env0 storeAB "A" "B" 600 "USD").store
      "A" "B" 600 "USD").result =
      .ok (internalRow env1 (ProcessInternalPayment env0 storeAB "A" "B" 600 "USD").store
        "A" "B" 600 "USD") ∧
    balance (ProcessInternalPayment env1
      (ProcessInternalPayment env0 storeAB "A" "B" 600 "USD").store
      "A" "B" 600 "USD").store "A" = some (-200) := by
  have h : ¬ ((600 : Decimal) ≤ 0) := by norm_num
  simp [h, ProcessInternalPayment, env0, env1, storeAB, balance, Begin, Exec, debitAny, credit,
    updateAccounts, CreatePayment, Commit, Faults.none, internalRow, Arith.exact]
  norm_num

/-- The same two debits of 600.00 through `ProcessExternalPayment`, whose `UPDATE` carries
`AND balance >= $1`: the first succeeds, the second fails with the insufficient-balance
error, and `A` ends at 400.00. -/
theorem two_external_debits_one_succeeds :
    (ProcessExternalPayment env0 storeAB recipient0 "A" 600 "USD").result =
      .ok ⟨"p-1", recipient0, "success", "success"⟩ ∧
    (ProcessExternalPayment env1
      (ProcessExternalPayment env0 storeAB recipient0 "A" 600 "USD").store
      recipient0 "A" 600 "USD").result = .error "insufficient balance" ∧
    balance (ProcessExternalPayment env1
      (ProcessExternalPayment env0 storeAB recipient0 "A" 600 "USD").store
      recipient0 "A" 600 "USD").store "A" = some 400 := by
  have h : ¬ ((600 : Decimal) ≤ 0) := by norm_num
  simp [h, ProcessExternalPayment, env0, env1, storeAB, balance, Begin, Exec,
    debitIfSufficient, updateAccounts, CreatePayment, Commit, Faults.none, Arith.exact]
  norm_num

/-! ## Handlers -/

theorem IsAccountExists_of_balance (DB : Store) (id : String) (b : Decimal)
    (h : balance DB id = some b) :
    ∃ a, IsAccountExists DB id = .ok a ∧ a.Balance = b ∧ a.AccountID = id := by
  simp only [balance] at h
  cases hf : DB.accounts.find? (fun a => a.AccountID == id) with
  | none => simp [hf] at h
  | some a =>
    have hp := List.find?_some hf
    simp only [hf, Option.map_some', Option.some.injEq] at h
    exact ⟨a, by simp [IsAccountExists, hf], h, by simpa using hp⟩

theorem IsAccountExists_of_balance_none (DB : Store) (id : String)
    (h : balance DB id = none) : IsAccountExists DB id = .error "record not found" := by
  simp only [balance, Option.map_eq_none'] at h
  simp [IsAccountExists, h]

/-- C13: for every authenticated request to the InternalPayment or ExternalPayment handler
whose source account exists and whose amount is strictly greater than that account's
balance, the response is HTTP 400 with message `Insufficient balance`, the engine is not
invoked and the store is unchanged; for an amount equal to the balance the response is
never that rejection. -/
theorem handler_insufficient_balance (env : Env) (DB : Store)
    (claimPayload : JwtSessionPayload) (b : Decimal) :
    (∀ form : InternalPaymentRequest, balance DB form.FromAccount = some b →
      (b < form.Amount →
        (PaymentGroup.InternalPayment env DB (some claimPayload) (some form)).response =
            messageStatus 400 "Insufficient balance" 400 ∧
          (PaymentGroup.InternalPayment env DB (some claimPayload) (some form)).engine = [] ∧
          (PaymentGroup.InternalPayment env DB (some claimPayload) (some form)).store = DB) ∧
      (form.Amount = b →
        (PaymentGroup.InternalPayment env DB (some claimPayload) (some form)).response ≠
          messageStatus 400 "Insufficient balance" 400)) ∧
    (∀ form : ExternalPaymentRequest, balance DB form.Account = some b →
      (b < form.Amount →
        (PaymentGroup.ExternalPayment env DB (some claimPayload) (some form)).response =
            messageStatus 400 "Insufficient balance" 400 ∧
          (PaymentGroup.ExternalPayment env DB (some claimPayload) (some form)).engine = [] ∧
          (PaymentGroup.ExternalPayment env DB (some claimPayload) (some form)).store = DB) ∧
      (form.Amount = b →
        (PaymentGroup.ExternalPayment env DB (some claimPayload) (some form)).response ≠
          messageStatus 400 "Insufficient balance" 400)) := by
  refine ⟨fun form hb => ?_, fun form hb => ?_⟩
  · obtain ⟨a, ha, hbal, _⟩ := IsAccountExists_of_balance DB _ b hb
    refine ⟨fun hlt => ?_, fun heq => ?_⟩
    · simp [PaymentGroup.InternalPayment, ha, hbal, hlt]
    · simp only [PaymentGroup.InternalPayment, ha, hbal, heq, lt_irrefl, if_false]
      split
      · simp [ErrorResponse, messageStatus]
      · split
        · split_ifs <;> simp [messageError, messageStatus]
        · simp [responseMessage, messageStatus]
  · obtain ⟨a, ha, hbal, _⟩ := IsAccountExists_of_balance DB _ b hb
    refine ⟨fun hlt => ?_, fun heq => ?_⟩
    · simp [PaymentGroup.ExternalPayment, ha, hbal, hlt]
    · simp only [PaymentGroup.ExternalPayment, ha, hbal, heq, lt_irrefl, if_false]
      split_ifs
      · split <;> simp [messageError, responseMessage, messageStatus]
      · split <;> simp [messageError, responseMessage, messageStatus]
      · simp [messageStatus]

/-- C13 (witness): the request of the test suite, 2000.00 from `A` = 1000.00, and a request
for exactly 1000.00. -/
theorem handler_insufficient_balance_witness :
    ((PaymentGroup.InternalPayment env0 storeAB (some claim0)
          (some ⟨"A", "B", 2000, "USD"⟩)).response =
        messageStatus 400 "Insufficient balance" 400 ∧
      (PaymentGroup.InternalPayment env0 storeAB (some claim0)
          (some ⟨"A", "B", 2000, "USD"⟩)).engine = [] ∧
      (PaymentGroup.InternalPayment env0 storeAB (some claim0)
          (some ⟨"A", "B", 2000, "USD"⟩)).store = storeAB) ∧
    (PaymentGroup.ExternalPayment env0 storeAB (some claim0)
        (some ⟨"A", 1000, "USD", "BANK_TRANSFER", recipient0⟩)).response ≠
      messageStatus 400 "Insufficient balance" 400 :=
  ⟨((handler_insufficient_balance env0 storeAB claim0 1000).1 ⟨"A", "B", 2000, "USD"⟩
      (by simp [balance, storeAB])).1 (by norm_num),
    ((handler_insufficient_balance env0 storeAB claim0 1000).2
      ⟨"A", 1000, "USD", "BANK_TRANSFER", recipient0⟩ (by simp [balance, storeAB])).2 rfl⟩

/-- C14: for every authenticated ExternalPayment request whose source account exists with
balance at least the amount, (1) if the transaction type is neither `BANK_TRANSFER` nor
`MOBILE_MONEY` the response is HTTP 400 with a message that starts with
`Invalid transaction type`, `ProcessExternalPayment` is not invoked and the store is
unchanged; (2) with either supported type the handler makes the same single invocation
`ProcessExternalPayment(recipient, account, amount, currency)` and ends the same way: the
store it leaves is the store that invocation leaves, and its response is HTTP 500
`Failed to process payment` with the error of that invocation, or HTTP 200
`Payment created successfully` with the result of that invocation. -/
theorem handler_unsupported_channel (env : Env) (DB : Store)
    (claimPayload : JwtSessionPayload) (form : ExternalPaymentRequest) (b : Decimal)
    (hb : balance DB form.Account = some b) (hle : form.Amount ≤ b) :
    (form.TransactionType ≠ "BANK_TRANSFER" → form.TransactionType ≠ "MOBILE_MONEY" →
      (PaymentGroup.ExternalPayment env DB (some claimPayload) (some form)).response.Code =
          400 ∧
        (∃ rest, (PaymentGroup.ExternalPayment env DB (some claimPayload)
            (some form)).response.body =
          [⟨some ("Invalid transaction type" ++ rest), none, none, none, none⟩]) ∧
        (PaymentGroup.ExternalPayment env DB (some claimPayload) (some form)).engine = [] ∧
        (PaymentGroup.ExternalPayment env DB (some claimPayload) (some form)).store = DB) ∧
    (PaymentGroup.ExternalPayment env DB (some claimPayload)
        (some { form with TransactionType := "BANK_TRANSFER" })).engine =
      [.external form.Recipient form.Account form.Amount form.Currency] ∧
    (PaymentGroup.ExternalPayment env DB (some claimPayload)
        (some { form with TransactionType := "MOBILE_MONEY" })).engine =
      [.external form.Recipient form.Account form.Amount form.Currency] ∧
    PaymentGroup.ExternalPayment env DB (some claimPayload)
        (some { form with TransactionType := "BANK_TRANSFER" }) =
      PaymentGroup.ExternalPayment env DB (some claimPayload)
        (some { form with TransactionType := "MOBILE_MONEY" }) ∧
    PaymentGroup.ExternalPayment env DB (some claimPayload)
        (some { form with TransactionType := "BANK_TRANSFER" }) =
      ⟨(ProcessExternalPayment env DB form.Recipient form.Account form.Amount
          form.Currency).store,
        match (ProcessExternalPayment env DB form.Recipient form.Account form.Amount
          form.Currency).result with
        | .error err => messageError 500 "Failed to process payment" err
        | .ok response => responseMessage response "Payment created successfully",
        [.external form.Recipient form.Account form.Amount form.Currency]⟩ ∧
    PaymentGroup.ExternalPayment env DB (some claimPayload)
        (some { form with TransactionType := "MOBILE_MONEY" }) =
      ⟨(ProcessExternalPayment env DB form.Recipient form.Account form.Amount
          form.Currency).store,
        match (ProcessExternalPayment env DB form.Recipient form.Account form.Amount
          form.Currency).result with
        | .error err => messageError 500 "Failed to process payment" err
        | .ok response => responseMessage response "Payment created successfully",
        [.external form.Recipient form.Account form.Amount form.Currency]⟩ := by
  obtain ⟨a, ha, hbal, hid⟩ := IsAccountExists_of_balance DB _ b hb
  have hnlt : ¬ b < form.Amount := not_lt.mpr hle
  refine ⟨fun h1 h2 => ?_, ?_, ?_, ?_, ?_, ?_⟩
  · simp only [PaymentGroup.ExternalPayment, ha, hbal, hnlt, h1, h2, if_false]
    exact ⟨trivial, ⟨" support BANK_TRANSFER or MOBILE_MONEY", rfl⟩, trivial, trivial⟩
  · simp only [PaymentGroup.ExternalPayment, ha, hbal, hnlt, if_false, if_true, hid]
    split <;> rfl
  · simp only [PaymentGroup.ExternalPayment, ha, hbal, hnlt, if_false, hid]
    split_ifs <;> split <;> rfl
  · simp only [PaymentGroup.ExternalPayment, ha, hbal, hnlt, if_false, if_true]
    simp
  · simp only [PaymentGroup.ExternalPayment, ha, hbal, hnlt, if_false, if_true, hid]
    generalize ProcessExternalPayment env DB form.Recipient form.Account form.Amount
      form.Currency = out
    obtain ⟨s, r, c⟩ := out
    cases r <;> rfl
  · simp only [PaymentGroup.ExternalPayment, ha, hbal, hnlt, if_false, hid]
    generalize ProcessExternalPayment env DB form.Recipient form.Account form.Amount
      form.Currency = out
    obtain ⟨s, r, c⟩ := out
    cases r <;> simp

/-- C14 (witness): the request of the test suite, type `INVALID_TYPE`, 100.00 from `A`. -/
theorem handler_unsupported_channel_witness :
    (PaymentGroup.ExternalPayment env0 storeAB (some claim0)
        (some ⟨"A", 100, "USD", "INVALID_TYPE", recipient0⟩)).response.Code = 400 ∧
      (∃ rest, (PaymentGroup.ExternalPayment env0 storeAB (some claim0)
          (some ⟨"A", 100, "USD", "INVALID_TYPE", recipient0⟩)).response.body =
        [⟨some ("Invalid transaction type" ++ rest), none, none, none, none⟩]) ∧
      (PaymentGroup.ExternalPayment env0 storeAB (some claim0)
        (some ⟨"A", 100, "USD", "INVALID_TYPE", recipient0⟩)).engine = [] ∧
      (PaymentGroup.ExternalPayment env0 storeAB (some claim0)
        (some ⟨"A", 100, "USD", "INVALID_TYPE", recipient0⟩)).store = storeAB :=
  (handler_unsupported_channel env0 storeAB claim0
    ⟨"A", 100, "USD", "INVALID_TYPE", recipient0⟩ 1000 (by simp [balance, storeAB])
    (by norm_num)).1 (by decide) (by decide)

/-- C15: for every authenticated request whose source (InternalPayment, ExternalPayment) or
top-up (TopUp) account identifier does not resolve to an existing account, the response is
HTTP 400 with message `Account does not exist` (InternalPayment) or `Account not found`
(ExternalPayment, TopUp); the InternalPayment handler answers the same when the source
exists with sufficient balance and the destination identifier does not resolve; in all
these cases the engine is not invoked and the store is unchanged. -/
theorem handler_account_not_found (env : Env) (DB : Store) (claimPayload : JwtSessionPayload) :
    (∀ form : InternalPaymentRequest, balance DB form.FromAccount = none →
      (PaymentGroup.InternalPayment env DB (some claimPayload) (some form)).response =
          messageStatus 400 "Account does not exist" 400 ∧
        (PaymentGroup.InternalPayment env DB (some claimPayload) (some form)).engine = [] ∧
        (PaymentGroup.InternalPayment env DB (some claimPayload) (some form)).store = DB) ∧
    (∀ form : ExternalPaymentRequest, balance DB form.Account = none →
      (PaymentGroup.ExternalPayment env DB (some claimPayload) (some form)).response =
          messageError 400 "Account not found" "record not found" ∧
        (PaymentGroup.ExternalPayment env DB (some claimPayload) (some form)).engine = [] ∧
        (PaymentGroup.ExternalPayment env DB (some claimPayload) (some form)).store = DB) ∧
    (∀ form : TopUp, balance DB form.Account = none →
      (PaymentGroup.TopUp env DB (some claimPayload) (some form)).response =
          messageError 400 "Account not found" "record not found" ∧
        (PaymentGroup.TopUp env DB (some claimPayload) (some form)).engine = [] ∧
        (PaymentGroup.TopUp env DB (some claimPayload) (some form)).store = DB) ∧
    (∀ (form : InternalPaymentRequest) (b : Decimal),
      balance DB form.FromAccount = some b → form.Amount ≤ b →
      balance DB form.ToAccount = none →
      (PaymentGroup.InternalPayment env DB (some claimPayload) (some form)).response =
          messageStatus 400 "Account does not exist" 400 ∧
        (PaymentGroup.InternalPayment env DB (some claimPayload) (some form)).engine = [] ∧
        (PaymentGroup.InternalPayment env DB (some claimPayload) (some form)).store = DB) := by
  refine ⟨fun form h => ?_, fun form h => ?_, fun form h => ?_, fun form b hb hle hto => ?_⟩
  · simp [PaymentGroup.InternalPayment, IsAccountExists_of_balance_none DB _ h, ErrorResponse]
  · simp [PaymentGroup.ExternalPayment, IsAccountExists_of_balance_none DB _ h]
  · simp [PaymentGroup.TopUp, IsAccountExists_of_balance_none DB _ h]
  · obtain ⟨a, ha, hbal, _⟩ := IsAccountExists_of_balance DB _ b hb
    simp [PaymentGroup.InternalPayment, ha, hbal, not_lt.mpr hle,
      IsAccountExists_of_balance_none DB _ hto, ErrorResponse]

/-- C15 (witness): the requests of the test suite naming an account that does not exist, and
a transfer of 100.00 from `A` to an unknown destination. -/
theorem handler_account_not_found_witness :
    ((PaymentGroup.InternalPayment env0 storeAB (some claim0)
          (some ⟨"invalid-account-id", "B", 100, "USD"⟩)).response =
        messageStatus 400 "Account does not exist" 400 ∧
      (PaymentGroup.InternalPayment env0 storeAB (some claim0)
          (some ⟨"invalid-account-id", "B", 100, "USD"⟩)).engine = [] ∧
      (PaymentGroup.InternalPayment env0 storeAB (some claim0)
          (some ⟨"invalid-account-id", "B", 100, "USD"⟩)).store = storeAB) ∧
    ((PaymentGroup.TopUp env0 storeAB (some claim0)
          (some ⟨"non-existent-account", 100, "USD"⟩)).response =
        messageError 400 "Account not found" "record not found" ∧
      (PaymentGroup.TopUp env0 storeAB (some claim0)
          (some ⟨"non-existent-account", 100, "USD"⟩)).engine = [] ∧
      (PaymentGroup.TopUp env0 storeAB (some claim0)
          (some ⟨"non-existent-account", 100, "USD"⟩)).store = storeAB) ∧
    ((PaymentGroup.InternalPayment env0 storeAB (some claim0)
          (some ⟨"A", "missing", 100, "USD"⟩)).response =
        messageStatus 400 "Account does not exist" 400 ∧
      (PaymentGroup.InternalPayment env0 storeAB (some claim0)
          (some ⟨"A", "missing", 100, "USD"⟩)).engine = [] ∧
      (PaymentGroup.InternalPayment env0 storeAB (some claim0)
          (some ⟨"A", "missing", 100, "USD"⟩)).store = storeAB) :=
  ⟨(handler_account_not_found env0 storeAB claim0).1 ⟨"invalid-account-id", "B", 100, "USD"⟩
      (by simp [balance, storeAB]),
    (handler_account_not_found env0 storeAB claim0).2.2.1 ⟨"non-existent-account", 100, "USD"⟩
      (by simp [balance, storeAB]),
    (handler_account_not_found env0 storeAB claim0).2.2.2 ⟨"A", "missing", 100, "USD"⟩ 1000
      (by simp [balance, storeAB]) (by norm_num) (by simp [balance, storeAB])⟩

/-- C16: for every request to the internal_payment, external_payment or topup route whose
Authorization header yields no token, or a token that fails validation, the response status
is 401, no engine operation is invoked and the store is unchanged, whatever the request
body: the middleware writes the 401 and the handler, which still runs, finds no
`x-claim-payload` and stops. -/
theorem unauthorized_rejected
    (ValidateSessionToken : String → Except String JwtSessionPayload) (env : Env) (DB : Store)
    (Authorization : String)
    (h : ReplaceAll Authorization "Bearer " = "" ∨
      ∃ e, ValidateSessionToken (ReplaceAll Authorization "Bearer ") = .error e) :
    (∀ form : Option InternalPaymentRequest,
      (route_internal_payment ValidateSessionToken env DB Authorization form).response.Code =
          401 ∧
        (route_internal_payment ValidateSessionToken env DB Authorization form).engine = [] ∧
        (route_internal_payment ValidateSessionToken env DB Authorization form).store = DB) ∧
    (∀ form : Option ExternalPaymentRequest,
      (route_external_payment ValidateSessionToken env DB Authorization form).response.Code =
          401 ∧
        (route_external_payment ValidateSessionToken env DB Authorization form).engine = [] ∧
        (route_external_payment ValidateSessionToken env DB Authorization form).store = DB) ∧
    (∀ form : Option TopUp,
      (route_topup ValidateSessionToken env DB Authorization form).response.Code = 401 ∧
        (route_topup ValidateSessionToken env DB Authorization form).engine = [] ∧
        (route_topup ValidateSessionToken env DB Authorization form).store = DB) := by
  refine ⟨fun form => ?_, fun form => ?_, fun form => ?_⟩
  · rcases h with h | ⟨e, h⟩
    · simp [route_internal_payment, SessionMiddleware, h, errorThen,
        PaymentGroup.InternalPayment]
    · by_cases h0 : ReplaceAll Authorization "Bearer " = "" <;>
        simp [route_internal_payment, SessionMiddleware, h, h0, errorThen,
          PaymentGroup.InternalPayment]
  · rcases h with h | ⟨e, h⟩
    · simp [route_external_payment, SessionMiddleware, h, errorThen,
        PaymentGroup.ExternalPayment]
    · by_cases h0 : ReplaceAll Authorization "Bearer " = "" <;>
        simp [route_external_payment, SessionMiddleware, h, h0, errorThen,
          PaymentGroup.ExternalPayment]
  · rcases h with h | ⟨e, h⟩
    · simp [route_topup, SessionMiddleware, h, errorThen, PaymentGroup.TopUp]
    · by_cases h0 : ReplaceAll Authorization "Bearer " = "" <;>
        simp [route_topup, SessionMiddleware, h, h0, errorThen, PaymentGroup.TopUp]

/-- C17: for every authenticated TopUp request for an existing account whose amount is zero
or negative, the response is HTTP 500 with message `Failed to process payment` (the error
being that of the engine, `invalid amount`), and the store is unchanged. -/
theorem topup_handler_nonpositive_amount (env : Env) (DB : Store)
    (claimPayload : JwtSessionPayload) (form : TopUp) (b : Decimal)
    (hb : balance DB form.Account = some b) (hamt : form.Amount ≤ 0) :
    (PaymentGroup.TopUp env DB (some claimPayload) (some form)).response =
        messageError 500 "Failed to process payment" "invalid amount" ∧
      (PaymentGroup.TopUp env DB (some claimPayload) (some form)).response.Code = 500 ∧
      (PaymentGroup.TopUp env DB (some claimPayload) (some form)).store = DB := by
  obtain ⟨a, ha, _, _⟩ := IsAccountExists_of_balance DB _ b hb
  simp [PaymentGroup.TopUp, ha, TopUpProcess, hamt, messageError]

/-- C17 (witness): the amount -100.00 of the test suite, on account `A`. -/
theorem topup_handler_nonpositive_amount_witness :
    (PaymentGroup.TopUp env0 storeAB (some claim0) (some ⟨"A", -100, "USD"⟩)).response =
        messageError 500 "Failed to process payment" "invalid amount" ∧
      (PaymentGroup.TopUp env0 storeAB (some claim0) (some ⟨"A", -100, "USD"⟩)).response.Code =
        500 ∧
      (PaymentGroup.TopUp env0 storeAB (some claim0) (some ⟨"A", -100, "USD"⟩)).store =
        storeAB :=
  topup_handler_nonpositive_amount env0 storeAB claim0 ⟨"A", -100, "USD"⟩ 1000
    (by simp [balance, storeAB]) (by norm_num)

/-- The fuel `ReplaceAll` passes to `dropAll` is enough: more fuel changes nothing. -/
theorem dropAll_fuel (old : List Char) (hold : old ≠ []) :
    ∀ (n : Nat) (s : List Char), s.length ≤ n → dropAll old n s = dropAll old s.length s := by
  intro n
  induction n using Nat.strong_induction_on with
  | _ n ih =>
    intro s hs
    match n, s with
    | 0, [] => rfl
    | n + 1, [] => rfl
    | n + 1, c :: cs =>
      simp only [dropAll, List.length_cons]
      have hpos : 0 < old.length := List.length_pos.mpr hold
      split_ifs with h
      · have h1 : ((c :: cs).drop old.length).length ≤ cs.length := by
          simp only [List.length_drop, List.length_cons]; omega
        have hs' : cs.length ≤ n := by simpa using hs
        rw [ih n (Nat.lt_succ_self n) _ (le_trans h1 hs'),
          ih cs.length (by omega) _ h1]
      · have hs' : cs.length ≤ n := by simpa using hs
        rw [ih n (Nat.lt_succ_self n) _ hs']

/-- C16 (witness): a request with no Authorization header, as in the test suite, and a
request whose token fails validation. -/
theorem unauthorized_rejected_witness :
    ((route_internal_payment rejectAll env0 storeAB ""
          (some ⟨"A", "B", 100, "USD"⟩)).response.Code = 401 ∧
      (route_internal_payment rejectAll env0 storeAB ""
          (some ⟨"A", "B", 100, "USD"⟩)).engine = [] ∧
      (route_internal_payment rejectAll env0 storeAB ""
          (some ⟨"A", "B", 100, "USD"⟩)).store = storeAB) ∧
    ((route_topup rejectAll env0 storeAB "Bearer abc"
          (some ⟨"A", 100, "USD"⟩)).response.Code = 401 ∧
      (route_topup rejectAll env0 storeAB "Bearer abc" (some ⟨"A", 100, "USD"⟩)).engine = [] ∧
      (route_topup rejectAll env0 storeAB "Bearer abc" (some ⟨"A", 100, "USD"⟩)).store =
        storeAB) :=
  ⟨(unauthorized_rejected rejectAll env0 storeAB "" (Or.inl (by decide))).1
      (some ⟨"A", "B", 100, "USD"⟩),
    (unauthorized_rejected rejectAll env0 storeAB "Bearer abc"
      (Or.inr ⟨"signature is invalid", rfl⟩)).2.2 (some ⟨"A", 100, "USD"⟩)⟩

/-! ## Registration -/

theorem le_foldl_max (ids : List Int) :
    ∀ init : Int, init ≤ ids.foldl max init ∧ ∀ x ∈ ids, x ≤ ids.foldl max init := by
  induction ids with
  | nil => intro init; simp
  | cons y ys ih =>
    intro init
    simp only [List.foldl_cons, List.mem_cons]
    obtain ⟨h1, h2⟩ := ih (max init y)
    refine ⟨le_trans (le_max_left _ _) h1, ?_⟩
    rintro x (rfl | hx)
    · exact le_trans (le_max_right _ _) h1
    · exact h2 x hx

/-- A fresh primary key is positive and above every key in use. -/
theorem lt_nextID (ids : List Int) : 0 < nextID ids ∧ ∀ x ∈ ids, x < nextID ids := by
  obtain ⟨h1, h2⟩ := le_foldl_max ids 0
  refine ⟨by unfold nextID; omega, fun x hx => ?_⟩
  have := h2 x hx
  unfold nextID
  omega

/-- `IsEmailExists` finds a row exactly when the unique index on `email` would reject an
insert of that email. -/
theorem find?_email_none_iff (users : List User) (email : String) :
    users.find? (fun u => u.Email == email) = none ↔ ¬ ∃ x ∈ users, x.Email = email := by
  simp [List.find?_eq_none]

/-- C20: (1) a `CreateUser` registration answered 201 has created exactly one User, with
the email of the form and an identifier no earlier user has, and exactly one Account, owned
by that user, with currency `USD` and balance 0, and nothing else; (2) if creating the
account fails nothing is created, the user included; (3) a registration whose email
already belongs to a user is answered `email already exists` and creates neither a User nor
an Account. -/
theorem registration_creates_one_account (env : RegEnv) (db : Database) (form : structs.User) :
    ((UserGroup.CreateUser env db (some form)).response.Code = 201 →
      ∃ (u : User) (a : Account),
        (UserGroup.CreateUser env db (some form)).db.users = db.users ++ [u] ∧
        (UserGroup.CreateUser env db (some form)).db.store.accounts =
          db.store.accounts ++ [a] ∧
        (UserGroup.CreateUser env db (some form)).db.store.payments = db.store.payments ∧
        (UserGroup.CreateUser env db (some form)).db.store.ledger_entries =
          db.store.ledger_entries ∧
        u.Email = form.Email ∧ (∀ v ∈ db.users, v.ID ≠ u.ID) ∧
        a.UserID = u.ID ∧ a.Currency = "USD" ∧ a.Balance = 0) ∧
    (∀ e, env.faults.createAccountErr = some e →
      (UserGroup.CreateUser env db (some form)).db = db ∧
      (UserGroup.CreateUser env db (some form)).response.Code = 400) ∧
    (env.faults.findErr = Option.none → (∀ v ∈ db.users, v.ID ≠ 0) →
      (∃ v ∈ db.users, v.Email = form.Email) →
      (UserGroup.CreateUser env db (some form)).response =
          ErrorResponse "email already exists" ∧
        (UserGroup.CreateUser env db (some form)).db = db) := by
  obtain ⟨⟨fe, be, cu, ca, cm⟩, hash, uu, au, now⟩ := env
  refine ⟨?_, ?_, ?_⟩
  · intro h
    cases fe with
    | some e => simp [UserGroup.CreateUser, IsEmailExists, ErrorResponse, messageStatus] at h
    | none =>
    cases hfind : db.users.find? (fun u => u.Email == form.Email) with
    | some v =>
      have hmem := List.mem_of_find?_eq_some hfind
      have hp : v.Email = form.Email := by simpa using List.find?_some hfind
      have hany : ∃ x ∈ db.users, x.Email = form.Email := ⟨v, hmem, hp⟩
      by_cases hv : v.ID = 0 <;> cases hh : hash form.Password <;> cases be <;> cases cu <;>
        simp [UserGroup.CreateUser, IsEmailExists, CreateUserRow, hfind, hv, hh, hany,
          ErrorResponse, messageStatus] at h
    | none =>
      have hany : ¬ ∃ x ∈ db.users, x.Email = form.Email :=
        (find?_email_none_iff _ _).mp hfind
      cases hh : hash form.Password with
      | error e =>
        simp [UserGroup.CreateUser, IsEmailExists, hfind, hh, ErrorResponse, messageStatus] at h
      | ok hp =>
      cases be <;> cases cu <;> cases ca <;> cases cm <;>
        simp [UserGroup.CreateUser, IsEmailExists, CreateUserRow, CreateAccountRow, hfind, hh,
          hany, ErrorResponse, messageStatus] at h ⊢
      intro v hv heq
      have := (lt_nextID (db.users.map (·.ID))).2 v.ID (List.mem_map_of_mem _ hv)
      omega
  · intro e he
    simp only at he
    subst he
    cases fe <;> cases be <;> cases cu <;>
      simp only [UserGroup.CreateUser, IsEmailExists, CreateUserRow, CreateAccountRow] <;>
      repeat' split
    all_goals simp_all [ErrorResponse, messageStatus]
  · intro hfe hids hex
    simp only at hfe
    subst hfe
    obtain ⟨v, hv, hemail⟩ := hex
    cases hfind : db.users.find? (fun u => u.Email == form.Email) with
    | none => exact absurd ⟨v, hv, hemail⟩ ((find?_email_none_iff _ _).mp hfind)
    | some w =>
      have hw := hids w (List.mem_of_find?_eq_some hfind)
      simp [UserGroup.CreateUser, IsEmailExists, hfind, hw]

/-- C20 (witness): a first registration on an empty database, a registration whose account
insert fails, and a second registration of `test@example.com`. -/
theorem registration_creates_one_account_witness :
    (∃ (u : User) (a : Account),
      (UserGroup.CreateUser regEnv0 dbEmpty (some ⟨"new@example.com", "secret"⟩)).db.users =
        dbEmpty.users ++ [u] ∧
      (UserGroup.CreateUser regEnv0 dbEmpty
        (some ⟨"new@example.com", "secret"⟩)).db.store.accounts =
        dbEmpty.store.accounts ++ [a] ∧
      (UserGroup.CreateUser regEnv0 dbEmpty
        (some ⟨"new@example.com", "secret"⟩)).db.store.payments = dbEmpty.store.payments ∧
      (UserGroup.CreateUser regEnv0 dbEmpty
        (some ⟨"new@example.com", "secret"⟩)).db.store.ledger_entries =
        dbEmpty.store.ledger_entries ∧
      u.Email = "new@example.com" ∧ (∀ v ∈ dbEmpty.users, v.ID ≠ u.ID) ∧
      a.UserID = u.ID ∧ a.Currency = "USD" ∧ a.Balance = 0) ∧
    ((UserGroup.CreateUser regEnvAccountFails dbOneUser
        (some ⟨"new@example.com", "secret"⟩)).db = dbOneUser ∧
      (UserGroup.CreateUser regEnvAccountFails dbOneUser
        (some ⟨"new@example.com", "secret"⟩)).response.Code = 400) ∧
    ((UserGroup.CreateUser regEnv0 dbOneUser
        (some ⟨"test@example.com", "secret"⟩)).response =
        ErrorResponse "email already exists" ∧
      (UserGroup.CreateUser regEnv0 dbOneUser (some ⟨"test@example.com", "secret"⟩)).db =
        dbOneUser) :=
  ⟨(registration_creates_one_account regEnv0 dbEmpty ⟨"new@example.com", "secret"⟩).1
      (by simp [UserGroup.CreateUser, IsEmailExists, CreateUserRow, CreateAccountRow, regEnv0,
        RegFaults.none, dbEmpty]),
    (registration_creates_one_account regEnvAccountFails dbOneUser
      ⟨"new@example.com", "secret"⟩).2.1 "insert failed" rfl,
    (registration_creates_one_account regEnv0 dbOneUser ⟨"test@example.com", "secret"⟩).2.2
      rfl (by simp [dbOneUser]) (by simp [dbOneUser])⟩

/-! ## Self-transfer, frame and currency -/

/-- C23 (counterexample): three transfers of a positive amount from the existing account
`A` to itself that return a Payment.  On SQLite, with no storage call failing, the
transfer of 0.04 leaves `A` (0.11) at 0.11000000000000001.  On a storage layer whose credit
`UPDATE` fails, the transfer of 100.00 leaves `A` (1000.00) at 900.00.  On SQLite, with no
storage call failing, the transfer of 1.788871137 from `A` (1000.00) records a Payment
whose amount is 1.7888711370000001, not the amount given. -/
theorem self_transfer_changes_balance :
    (balance storeEleven "A" = some 0.11 ∧
      (∃ p, (ProcessInternalPayment envSqlite storeEleven "A" "A" 0.04 "USD").result = .ok p) ∧
      balance (ProcessInternalPayment envSqlite storeEleven "A" "A" 0.04 "USD").store "A" =
        some 0.11000000000000001 ∧
      (0.11000000000000001 : Decimal) ≠ 0.11) ∧
    (balance storeAB "A" = some 1000 ∧
      (∃ p, (ProcessInternalPayment envCreditFails storeAB "A" "A" 100 "USD").result = .ok p) ∧
      balance (ProcessInternalPayment envCreditFails storeAB "A" "A" 100 "USD").store "A" =
        some 900) ∧
    ((∃ p, (ProcessInternalPayment envSqlite storeAB "A" "A" 1.788871137 "USD").result =
        .ok p) ∧
      (ProcessInternalPayment envSqlite storeAB "A" "A" 1.788871137 "USD").store.payments.map
        (·.Amount) = [1.7888711370000001] ∧
      (1.7888711370000001 : Decimal) ≠ 1.788871137) := by
  refine ⟨?_, ?_, ?_⟩
  · have h : ¬ ((0.04 : Decimal) ≤ 0) := by norm_num
    simp [h, ProcessInternalPayment, envSqlite, storeEleven, balance, Begin, Exec, debitAny,
      credit, updateAccounts, CreatePayment, Commit, Faults.none, arithSqlite]
    norm_num
  · have h : ¬ ((100 : Decimal) ≤ 0) := by norm_num
    simp [h, ProcessInternalPayment, envCreditFails, storeAB, balance, Begin, Exec, debitAny,
      credit, updateAccounts, CreatePayment, Commit, Faults.none, Arith.exact]
    norm_num
  · have h : ¬ ((1.788871137 : Decimal) ≤ 0) := by norm_num
    simp [h, ProcessInternalPayment, envSqlite, storeAB, balance, Begin, Exec, debitAny,
      credit, updateAccounts, CreatePayment, Commit, Faults.none, arithSqlite]
    norm_num

/-- C23 (amended): when no storage call fails, the database's `balance + amount` undoes its
`balance - amount` on the balance of `A` (as exact arithmetic does) and its `numeric(18,2)`
column returns the amount as it was written, for every existing account `A` and every
amount `> 0`, `ProcessInternalPayment(A, A, amount, currency)` succeeds, leaves the balance
of `A` equal to its value before the call, and records exactly one Payment, the one it
returns, with FromAccount = ToAccount = `A` and the given amount. -/
theorem self_transfer_keeps_balance (uuid : String) (now : Nat) (arith : Arith) (DB : Store)
    (A : String) (amount : Decimal) (currency : String) (b : Decimal) (hpos : 0 < amount)
    (hb : balance DB A = some b)
    (hcancel : arith.add (arith.sub b amount) amount = b)
    (hstored : arith.stored amount = amount) :
    balance (ProcessInternalPayment ⟨Faults.none, uuid, now, arith⟩ DB A A amount currency).store A =
        some b ∧
      ∃ p : Payment,
        (ProcessInternalPayment ⟨Faults.none, uuid, now, arith⟩ DB A A amount currency).result =
          .ok p ∧
        (ProcessInternalPayment ⟨Faults.none, uuid, now, arith⟩ DB A A amount
          currency).store.payments = DB.payments ++ [p] ∧
        p.FromAccount = A ∧ p.ToAccount = A ∧ p.Amount = amount := by
  have hrows := countP_pos_of_balance DB.accounts A b hb
  rw [ProcessInternalPayment_noFaults _ _ _ _ _ _ _ _ hpos, if_neg hrows]
  refine ⟨?_, internalRow ⟨Faults.none, uuid, now, arith⟩ DB A A amount currency,
    ?_, rfl, rfl, rfl, hstored⟩
  · simp only [balance, credit, debitAny] at hb ⊢
    rw [balance_update_same, balance_update_same, hb]
    simp [hcancel]
  · simp [internalRow, hstored]

/-- C23 (witness): on exact arithmetic, `A` = 1000.00 transfers 100.00, and then 2000.00,
to itself. -/
theorem self_transfer_keeps_balance_witness :
    (balance (ProcessInternalPayment ⟨Faults.none, "p-1", 0, Arith.exact⟩ storeAB "A" "A" 100
        "USD").store "A" = some 1000 ∧
      ∃ p : Payment,
        (ProcessInternalPayment ⟨Faults.none, "p-1", 0, Arith.exact⟩ storeAB "A" "A" 100 "USD").result =
          .ok p ∧
        (ProcessInternalPayment ⟨Faults.none, "p-1", 0, Arith.exact⟩ storeAB "A" "A" 100
          "USD").store.payments = storeAB.payments ++ [p] ∧
        p.FromAccount = "A" ∧ p.ToAccount = "A" ∧ p.Amount = 100) ∧
    (balance (ProcessInternalPayment ⟨Faults.none, "p-1", 0, Arith.exact⟩ storeAB "A" "A" 2000
        "USD").store "A" = some 1000 ∧
      ∃ p : Payment,
        (ProcessInternalPayment ⟨Faults.none, "p-1", 0, Arith.exact⟩ storeAB "A" "A" 2000 "USD").result =
          .ok p ∧
        (ProcessInternalPayment ⟨Faults.none, "p-1", 0, Arith.exact⟩ storeAB "A" "A" 2000
          "USD").store.payments = storeAB.payments ++ [p] ∧
        p.FromAccount = "A" ∧ p.ToAccount = "A" ∧ p.Amount = 2000) :=
  ⟨self_transfer_keeps_balance "p-1" 0 Arith.exact storeAB "A" 100 "USD" 1000 (by norm_num)
      (by simp [balance, storeAB]) (by simp [Arith.exact]) rfl,
    self_transfer_keeps_balance "p-1" 0 Arith.exact storeAB "A" 2000 "USD" 1000 (by norm_num)
      (by simp [balance, storeAB]) (by simp [Arith.exact]) rfl⟩

/-- C24: whatever the storage layer does, two calls of the same engine operation that differ
only in the currency argument (`c₁`, `c₂`) issue the same storage calls, fail with the same
error or succeed together, and leave the same accounts (hence the same balances) and the
same LedgerEntry records; the currency shows only in the Currency field of the Payment
created (and returned, for `ProcessInternalPayment`): either no Payment is stored by
either call, or the two stored Payments are one Payment with Currency `c₁`, respectively
`c₂`. -/
theorem currency_only_labels_payment (env : Env) (DB : Store) (amount : Decimal)
    (c₁ c₂ : String) :
    (∀ (fromAccount toAccount : String),
      (ProcessInternalPayment env DB fromAccount toAccount amount c₁).calls =
        (ProcessInternalPayment env DB fromAccount toAccount amount c₂).calls ∧
      (ProcessInternalPayment env DB fromAccount toAccount amount c₁).result.map
          (fun p => { p with Currency := c₂ }) =
        (ProcessInternalPayment env DB fromAccount toAccount amount c₂).result ∧
      (ProcessInternalPayment env DB fromAccount toAccount amount c₁).store.accounts =
        (ProcessInternalPayment env DB fromAccount toAccount amount c₂).store.accounts ∧
      (ProcessInternalPayment env DB fromAccount toAccount amount c₁).store.ledger_entries =
        (ProcessInternalPayment env DB fromAccount toAccount amount c₂).store.ledger_entries ∧
      (((ProcessInternalPayment env DB fromAccount toAccount amount c₁).store.payments =
            DB.payments ∧
          (ProcessInternalPayment env DB fromAccount toAccount amount c₂).store.payments =
            DB.payments) ∨
        ∃ p : Payment,
          (ProcessInternalPayment env DB fromAccount toAccount amount c₁).store.payments =
            DB.payments ++ [{ p with Currency := c₁ }] ∧
          (ProcessInternalPayment env DB fromAccount toAccount amount c₂).store.payments =
            DB.payments ++ [{ p with Currency := c₂ }])) ∧
    (∀ (recipient : RecipientDetails) (fromAccount : String),
      (ProcessExternalPayment env DB recipient fromAccount amount c₁).calls =
        (ProcessExternalPayment env DB recipient fromAccount amount c₂).calls ∧
      (ProcessExternalPayment env DB recipient fromAccount amount c₁).result =
        (ProcessExternalPayment env DB recipient fromAccount amount c₂).result ∧
      (ProcessExternalPayment env DB recipient fromAccount amount c₁).store.accounts =
        (ProcessExternalPayment env DB recipient fromAccount amount c₂).store.accounts ∧
      (ProcessExternalPayment env DB recipient fromAccount amount c₁).store.ledger_entries =
        (ProcessExternalPayment env DB recipient fromAccount amount c₂).store.ledger_entries ∧
      (((ProcessExternalPayment env DB recipient fromAccount amount c₁).store.payments =
            DB.payments ∧
          (ProcessExternalPayment env DB recipient fromAccount amount c₂).store.payments =
            DB.payments) ∨
        ∃ p : Payment,
          (ProcessExternalPayment env DB recipient fromAccount amount c₁).store.payments =
            DB.payments ++ [{ p with Currency := c₁ }] ∧
          (ProcessExternalPayment env DB recipient fromAccount amount c₂).store.payments =
            DB.payments ++ [{ p with Currency := c₂ }])) ∧
    (∀ (fromAccount : String),
      (TopUpProcess env DB fromAccount amount c₁).calls =
        (TopUpProcess env DB fromAccount amount c₂).calls ∧
      (TopUpProcess env DB fromAccount amount c₁).result =
        (TopUpProcess env DB fromAccount amount c₂).result ∧
      (TopUpProcess env DB fromAccount amount c₁).store.accounts =
        (TopUpProcess env DB fromAccount amount c₂).store.accounts ∧
      (TopUpProcess env DB fromAccount amount c₁).store.ledger_entries =
        (TopUpProcess env DB fromAccount amount c₂).store.ledger_entries ∧
      (((TopUpProcess env DB fromAccount amount c₁).store.payments = DB.payments ∧
          (TopUpProcess env DB fromAccount amount c₂).store.payments = DB.payments) ∨
        ∃ p : Payment,
          (TopUpProcess env DB fromAccount amount c₁).store.payments =
            DB.payments ++ [{ p with Currency := c₁ }] ∧
          (TopUpProcess env DB fromAccount amount c₂).store.payments =
            DB.payments ++ [{ p with Currency := c₂ }])) := by
  obtain ⟨⟨b, d, c, cp, cl, cm⟩, uuid, now, ar⟩ := env
  refine ⟨fun fromAccount toAccount => ?_, fun recipient fromAccount => ?_,
    fun fromAccount => ?_⟩
  · cases b <;> cases d <;> cases c <;> cases cp <;> cases cm <;>
      dsimp only [ProcessInternalPayment, Begin, Exec, CreatePayment, Commit] <;>
      split_ifs <;>
      first
      | exact ⟨rfl, rfl, rfl, rfl, Or.inl ⟨rfl, rfl⟩⟩
      | exact ⟨rfl, rfl, rfl, rfl, Or.inr
          ⟨internalRow ⟨Faults.none, uuid, now, ar⟩ DB fromAccount toAccount amount c₁, rfl, rfl⟩⟩
  · cases b <;> cases d <;> cases cp <;> cases cm <;>
      dsimp only [ProcessExternalPayment, Begin, Exec, CreatePayment, Commit] <;>
      split_ifs <;>
      first
      | exact ⟨rfl, rfl, rfl, rfl, Or.inl ⟨rfl, rfl⟩⟩
      | exact ⟨rfl, rfl, rfl, rfl, Or.inr
          ⟨externalRow ⟨Faults.none, uuid, now, ar⟩ DB fromAccount amount c₁, rfl, rfl⟩⟩
  · cases b <;> cases c <;> cases cp <;> cases cl <;> cases cm <;>
      dsimp only [TopUpProcess, Begin, Exec, CreatePayment, CreateLedgerEntry, Commit] <;>
      split_ifs <;>
      first
      | exact ⟨rfl, rfl, rfl, rfl, Or.inl ⟨rfl, rfl⟩⟩
      | exact ⟨rfl, rfl, rfl, rfl, Or.inr
          ⟨topUpRow ⟨Faults.none, uuid, now, ar⟩ DB fromAccount amount c₁, rfl, rfl⟩⟩

/-- Rewriting the balance of a row with the balance it has changes nothing. -/
theorem map_keep_balance (named : String → Prop) [DecidablePred named] (rows : List Account) :
    rows = rows.map
      (fun a => if named a.AccountID then { a with Balance := a.Balance } else a) := by
  induction rows with
  | nil => rfl
  | cons a rows ih =>
    rw [List.map_cons, ← ih]
    split_ifs <;> rfl

/-- An `UPDATE` rewrites nothing but the balance of rows it matches. -/
theorem updateAccounts_frame (named : String → Prop) [DecidablePred named]
    (cond : Account → Bool) (set : Decimal → Decimal) (rows : List Account)
    (hc : ∀ a, cond a = true → named a.AccountID) :
    (updateAccounts cond set rows).1 = rows.map
      (fun a => if named a.AccountID then
        { a with Balance := if cond a then set a.Balance else a.Balance } else a) := by
  simp only [updateAccounts]
  apply List.map_congr_left
  intro a _
  by_cases h : cond a = true
  · simp [h, hc a h]
  · have h' : cond a = false := by simpa using h
    cases a
    simp [h']

/-- The credit that follows the debit of `ProcessInternalPayment` rewrites nothing but the
balance of the source and of the destination. -/
theorem credit_debitAny_frame (arith : Arith) (amount : Decimal)
    (fromAccount toAccount : String) (rows : List Account) :
    (credit arith amount toAccount (debitAny arith amount fromAccount rows).1).1 = rows.map
      (fun a => if a.AccountID = fromAccount ∨ a.AccountID = toAccount then
        { a with Balance :=
            (if a.AccountID == toAccount then
              arith.add
                (if a.AccountID == fromAccount then arith.sub a.Balance amount else a.Balance)
                amount
            else (if a.AccountID == fromAccount then arith.sub a.Balance amount
              else a.Balance)) }
        else a) := by
  simp only [credit, debitAny, updateAccounts, List.map_map]
  apply List.map_congr_left
  intro a _
  obtain ⟨i, u, aid, cur, bal, ca⟩ := a
  by_cases h1 : aid = fromAccount
  · subst h1
    by_cases h2 : aid = toAccount
    · subst h2
      simp
    · simp [h2]
  · by_cases h2 : aid = toAccount
    · subst h2
      simp [h1]
    · simp [h1, h2]

/-- Rows rewritten only under a set of identifiers show the old balance under any other
identifier. -/
theorem balance_of_frame (named : String → Prop) [DecidablePred named] (g : Account → Decimal)
    (rows : List Account) (id : String) (hid : ¬ named id) :
    ((rows.map (fun a => if named a.AccountID then { a with Balance := g a } else a)).find?
        (fun a => a.AccountID == id)).map (·.Balance) =
      (rows.find? (fun a => a.AccountID == id)).map (·.Balance) := by
  induction rows with
  | nil => rfl
  | cons a rows ih =>
    simp only [List.map_cons, List.find?_cons]
    by_cases h : a.AccountID = id
    · have hn : ¬ named a.AccountID := by rw [h]; exact hid
      have hb : (a.AccountID == id) = true := by simpa using h
      simp only [hn, if_false, hb]
    · have h' : (a.AccountID == id) = false := by simpa using h
      by_cases hn : named a.AccountID
      · simp only [hn, if_true, h']
        exact ih
      · simp only [hn, if_false, h']
        exact ih

/-- What `ProcessInternalPayment` can leave in the store, whatever the storage layer does. -/
theorem ProcessInternalPayment_store_shape (env : Env) (DB : Store)
    (fromAccount toAccount : String) (amount : Decimal) (currency : String) :
    ((ProcessInternalPayment env DB fromAccount toAccount amount currency).store.accounts =
          DB.accounts ∨
        (ProcessInternalPayment env DB fromAccount toAccount amount currency).store.accounts =
          (debitAny env.arith amount fromAccount DB.accounts).1 ∨
        (ProcessInternalPayment env DB fromAccount toAccount amount currency).store.accounts =
          (credit env.arith amount toAccount
            (debitAny env.arith amount fromAccount DB.accounts).1).1) ∧
      ((ProcessInternalPayment env DB fromAccount toAccount amount currency).store.payments =
          DB.payments ∨
        ∃ p, (ProcessInternalPayment env DB fromAccount toAccount amount
          currency).store.payments = DB.payments ++ [p]) ∧
      (ProcessInternalPayment env DB fromAccount toAccount amount
        currency).store.ledger_entries = DB.ledger_entries := by
  obtain ⟨⟨b, d, c, cp, cl, cm⟩, uuid, now, ar⟩ := env
  cases b <;> cases d <;> cases c <;> cases cp <;> cases cm <;>
    dsimp only [ProcessInternalPayment, Begin, Exec, CreatePayment, Commit] <;>
    split_ifs <;>
    first
    | exact ⟨Or.inl rfl, Or.inl rfl, rfl⟩
    | exact ⟨Or.inr (Or.inl rfl), Or.inr ⟨_, rfl⟩, rfl⟩
    | exact ⟨Or.inr (Or.inr rfl), Or.inr ⟨_, rfl⟩, rfl⟩

/-- What `ProcessExternalPayment` can leave in the store, whatever the storage layer does. -/
theorem ProcessExternalPayment_store_shape (env : Env) (DB : Store)
    (recipient : RecipientDetails) (fromAccount : String) (amount : Decimal)
    (currency : String) :
    ((ProcessExternalPayment env DB recipient fromAccount amount currency).store.accounts =
          DB.accounts ∨
        (ProcessExternalPayment env DB recipient fromAccount amount currency).store.accounts =
          (debitIfSufficient env.arith amount fromAccount DB.accounts).1) ∧
      ((ProcessExternalPayment env DB recipient fromAccount amount currency).store.payments =
          DB.payments ∨
        ∃ p, (ProcessExternalPayment env DB recipient fromAccount amount
          currency).store.payments = DB.payments ++ [p]) ∧
      (ProcessExternalPayment env DB recipient fromAccount amount
        currency).store.ledger_entries = DB.ledger_entries := by
  obtain ⟨⟨b, d, c, cp, cl, cm⟩, uuid, now, ar⟩ := env
  cases b <;> cases d <;> cases cp <;> cases cm <;>
    dsimp only [ProcessExternalPayment, Begin, Exec, CreatePayment, Commit] <;>
    split_ifs <;>
    first
    | exact ⟨Or.inl rfl, Or.inl rfl, rfl⟩
    | exact ⟨Or.inr rfl, Or.inr ⟨_, rfl⟩, rfl⟩

/-- What `TopUpProcess` can leave in the store, whatever the storage layer does. -/
theorem TopUpProcess_store_shape (env : Env) (DB : Store) (fromAccount : String)
    (amount : Decimal) (currency : String) :
    ((TopUpProcess env DB fromAccount amount currency).store.accounts = DB.accounts ∨
        (TopUpProcess env DB fromAccount amount currency).store.accounts =
          (credit env.arith amount fromAccount DB.accounts).1) ∧
      ((TopUpProcess env DB fromAccount amount currency).store.payments = DB.payments ∨
        ∃ p, (TopUpProcess env DB fromAccount amount currency).store.payments =
          DB.payments ++ [p]) ∧
      ((TopUpProcess env DB fromAccount amount currency).store.ledger_entries =
          DB.ledger_entries ∨
        ∃ l, (TopUpProcess env DB fromAccount amount currency).store.ledger_entries =
          DB.ledger_entries ++ [l]) := by
  obtain ⟨⟨b, d, c, cp, cl, cm⟩, uuid, now, ar⟩ := env
  cases b <;> cases c <;> cases cp <;> cases cl <;> cases cm <;>
    dsimp only [TopUpProcess, Begin, Exec, CreatePayment, CreateLedgerEntry, Commit] <;>
    split_ifs <;>
    first
    | exact ⟨Or.inl rfl, Or.inl rfl, Or.inl rfl⟩
    | exact ⟨Or.inr rfl, Or.inr ⟨_, rfl⟩, Or.inr ⟨_, rfl⟩⟩
    | exact ⟨Or.inl rfl, Or.inr ⟨_, rfl⟩, Or.inr ⟨_, rfl⟩⟩

/-- C22: whatever the storage layer does, after any call of `ProcessInternalPayment`,
`ProcessExternalPayment` or `TopUpProcess` (1) the accounts are the accounts before, row by
row, with nothing but the Balance of the rows of the named account(s) possibly rewritten:
no account is added or removed and identifier, owner and currency are unchanged; (2) every
other account identifier shows the same balance as before; (3) the Payments are those before,
unmodified, with at most one appended; (4) the LedgerEntry records are those before,
unmodified, with at most one appended, by `TopUpProcess` only. -/
theorem engine_frame (env : Env) (DB : Store) (amount : Decimal) (currency : String) :
    (∀ (fromAccount toAccount : String),
      (∃ g : Account → Decimal,
        (ProcessInternalPayment env DB fromAccount toAccount amount currency).store.accounts =
          DB.accounts.map (fun a =>
            if a.AccountID = fromAccount ∨ a.AccountID = toAccount then
              { a with Balance := g a } else a)) ∧
      (∀ id : String, id ≠ fromAccount → id ≠ toAccount →
        balance (ProcessInternalPayment env DB fromAccount toAccount amount currency).store id =
          balance DB id) ∧
      ((ProcessInternalPayment env DB fromAccount toAccount amount currency).store.payments =
          DB.payments ∨
        ∃ p, (ProcessInternalPayment env DB fromAccount toAccount amount
          currency).store.payments = DB.payments ++ [p]) ∧
      (ProcessInternalPayment env DB fromAccount toAccount amount
        currency).store.ledger_entries = DB.ledger_entries) ∧
    (∀ (recipient : RecipientDetails) (fromAccount : String),
      (∃ g : Account → Decimal,
        (ProcessExternalPayment env DB recipient fromAccount amount currency).store.accounts =
          DB.accounts.map (fun a =>
            if a.AccountID = fromAccount then { a with Balance := g a } else a)) ∧
      (∀ id : String, id ≠ fromAccount →
        balance (ProcessExternalPayment env DB recipient fromAccount amount currency).store id =
          balance DB id) ∧
      ((ProcessExternalPayment env DB recipient fromAccount amount currency).store.payments =
          DB.payments ∨
        ∃ p, (ProcessExternalPayment env DB recipient fromAccount amount
          currency).store.payments = DB.payments ++ [p]) ∧
      (ProcessExternalPayment env DB recipient fromAccount amount
        currency).store.ledger_entries = DB.ledger_entries) ∧
    (∀ (fromAccount : String),
      (∃ g : Account → Decimal,
        (TopUpProcess env DB fromAccount amount currency).store.accounts =
          DB.accounts.map (fun a =>
            if a.AccountID = fromAccount then { a with Balance := g a } else a)) ∧
      (∀ id : String, id ≠ fromAccount →
        balance (TopUpProcess env DB fromAccount amount currency).store id = balance DB id) ∧
      ((TopUpProcess env DB fromAccount amount currency).store.payments = DB.payments ∨
        ∃ p, (TopUpProcess env DB fromAccount amount currency).store.payments =
          DB.payments ++ [p]) ∧
      ((TopUpProcess env DB fromAccount amount currency).store.ledger_entries =
          DB.ledger_entries ∨
        ∃ l, (TopUpProcess env DB fromAccount amount currency).store.ledger_entries =
          DB.ledger_entries ++ [l])) := by
  refine ⟨fun fromAccount toAccount => ?_, fun recipient fromAccount => ?_,
    fun fromAccount => ?_⟩
  · obtain ⟨hacc, hpay, hled⟩ :=
      ProcessInternalPayment_store_shape env DB fromAccount toAccount amount currency
    have hg : ∃ g : Account → Decimal,
        (ProcessInternalPayment env DB fromAccount toAccount amount currency).store.accounts =
          DB.accounts.map (fun a =>
            if a.AccountID = fromAccount ∨ a.AccountID = toAccount then
              { a with Balance := g a } else a) := by
      rcases hacc with h | h | h
      · exact ⟨_, h.trans
          (map_keep_balance (fun s => s = fromAccount ∨ s = toAccount) DB.accounts)⟩
      · exact ⟨_, h.trans
          (updateAccounts_frame (fun s => s = fromAccount ∨ s = toAccount) _ _ DB.accounts
            (fun a ha => Or.inl (by simpa using ha)))⟩
      · exact ⟨_, h.trans (credit_debitAny_frame env.arith amount fromAccount toAccount DB.accounts)⟩
    refine ⟨hg, fun id h1 h2 => ?_, hpay, hled⟩
    obtain ⟨g, hg⟩ := hg
    simp only [balance, hg]
    exact balance_of_frame (fun s => s = fromAccount ∨ s = toAccount) g DB.accounts id
      (fun h => h.elim h1 h2)
  · obtain ⟨hacc, hpay, hled⟩ :=
      ProcessExternalPayment_store_shape env DB recipient fromAccount amount currency
    have hg : ∃ g : Account → Decimal,
        (ProcessExternalPayment env DB recipient fromAccount amount currency).store.accounts =
          DB.accounts.map (fun a =>
            if a.AccountID = fromAccount then { a with Balance := g a } else a) := by
      rcases hacc with h | h
      · exact ⟨_, h.trans (map_keep_balance (fun s => s = fromAccount) DB.accounts)⟩
      · exact ⟨_, h.trans
          (updateAccounts_frame (fun s => s = fromAccount) _ _ DB.accounts
            (fun a ha => by
              simp only [Bool.and_eq_true, beq_iff_eq] at ha
              exact ha.1))⟩
    refine ⟨hg, fun id h1 => ?_, hpay, hled⟩
    obtain ⟨g, hg⟩ := hg
    simp only [balance, hg]
    exact balance_of_frame (fun s => s = fromAccount) g DB.accounts id h1
  · obtain ⟨hacc, hpay, hled⟩ := TopUpProcess_store_shape env DB fromAccount amount currency
    have hg : ∃ g : Account → Decimal,
        (TopUpProcess env DB fromAccount amount currency).store.accounts =
          DB.accounts.map (fun a =>
            if a.AccountID = fromAccount then { a with Balance := g a } else a) := by
      rcases hacc with h | h
      · exact ⟨_, h.trans (map_keep_balance (fun s => s = fromAccount) DB.accounts)⟩
      · exact ⟨_, h.trans
          (updateAccounts_frame (fun s => s = fromAccount) _ _ DB.accounts
            (fun a ha => by simpa using ha))⟩
    refine ⟨hg, fun id h1 => ?_, hpay, hled⟩
    obtain ⟨g, hg⟩ := hg
    simp only [balance, hg]
    exact balance_of_frame (fun s => s = fromAccount) g DB.accounts id h1

/-- C22 (witness): a top-up of 100.00 on `A` leaves the balance of `B` as it was. -/
theorem engine_frame_witness :
    balance (TopUpProcess env0 storeAB "A" 100 "USD").store "B" = balance storeAB "B" :=
  ((engine_frame env0 storeAB 100 "USD").2.2 "A").2.1 "B" (by decide)

/-! ## Non-negative balances behind the handlers -/

/-- `ProcessInternalPayment` keeps every balance non-negative when every row of the source
account holds at least the amount and the database's `balance - amount` and
`balance + amount` have the sign of the exact difference and sum, whatever the storage
layer does. -/
theorem internal_nonneg_of_sufficient (env : Env) (DB : Store)
    (fromAccount toAccount : String) (amount : Decimal) (currency : String)
    (hsub : ∀ x, amount ≤ x → 0 ≤ env.arith.sub x amount)
    (hadd : ∀ x, 0 ≤ x → 0 < amount → 0 ≤ env.arith.add x amount)
    (h : ∀ a ∈ DB.accounts, 0 ≤ a.Balance)
    (hsuff : ∀ a ∈ DB.accounts, a.AccountID = fromAccount → amount ≤ a.Balance) :
    ∀ a ∈ (ProcessInternalPayment env DB fromAccount toAccount amount currency).store.accounts,
      0 ≤ a.Balance := by
  by_cases hamt : amount ≤ 0
  · simpa [ProcessInternalPayment, hamt] using h
  · have hdeb : ∀ a ∈ (debitAny env.arith amount fromAccount DB.accounts).1, 0 ≤ a.Balance :=
      updateAccounts_nonneg _ _ _ h (fun a ha hc =>
        hsub _ (hsuff a ha (by simpa using hc)))
    have hcr : ∀ a ∈ (credit env.arith amount toAccount
        (debitAny env.arith amount fromAccount DB.accounts).1).1, 0 ≤ a.Balance :=
      updateAccounts_nonneg _ _ _ hdeb (fun a ha _ =>
        hadd _ (hdeb a ha) (not_le.mp hamt))
    obtain ⟨hacc, _, _⟩ :=
      ProcessInternalPayment_store_shape env DB fromAccount toAccount amount currency
    rcases hacc with e | e | e <;> rw [e]
    · exact h
    · exact hdeb
    · exact hcr

/-- The row `IsAccountExists` returns is a row of the table and carries the identifier. -/
theorem IsAccountExists_ok (DB : Store) (id : String) (a : Account)
    (h : IsAccountExists DB id = .ok a) : a ∈ DB.accounts ∧ a.AccountID = id := by
  simp only [IsAccountExists] at h
  cases hf : DB.accounts.find? (fun a => a.AccountID == id) with
  | none => simp [hf] at h
  | some a' =>
    simp only [hf, Except.ok.injEq] at h
    subst h
    exact ⟨List.mem_of_find?_eq_some hf, by simpa using List.find?_some hf⟩

/-- On a database whose `balance - amount` is non-negative whenever the amount is at most
the balance (as the exact difference is), and whose conditional debit and credit keep
signs, the pre-check of the InternalPayment handler makes up for the missing condition of
the internal debit: for every store with unique account identifiers in which every balance
is `≥ 0`, and every single request served by the InternalPayment, ExternalPayment or TopUp
handler, whatever the request and whatever the storage layer does, every account balance in
the resulting store is `≥ 0`. -/
theorem handlers_preserve_nonneg (env : Env) (DB : Store)
    (hsub : ∀ x y, y ≤ x → 0 ≤ env.arith.sub x y)
    (hge : ∀ x y, 0 ≤ x → env.arith.ge x y = true → 0 ≤ env.arith.sub x y)
    (hadd : ∀ x y, 0 ≤ x → 0 < y → 0 ≤ env.arith.add x y)
    (huniq : (DB.accounts.map (·.AccountID)).Nodup)
    (h : ∀ a ∈ DB.accounts, 0 ≤ a.Balance) :
    (∀ (claimPayload : Option JwtSessionPayload) (form : Option InternalPaymentRequest),
      ∀ a ∈ (PaymentGroup.InternalPayment env DB claimPayload form).store.accounts,
        0 ≤ a.Balance) ∧
    (∀ (claimPayload : Option JwtSessionPayload) (form : Option ExternalPaymentRequest),
      ∀ a ∈ (PaymentGroup.ExternalPayment env DB claimPayload form).store.accounts,
        0 ≤ a.Balance) ∧
    (∀ (claimPayload : Option JwtSessionPayload) (form : Option TopUp),
      ∀ a ∈ (PaymentGroup.TopUp env DB claimPayload form).store.accounts,
        0 ≤ a.Balance) := by
  refine ⟨fun claimPayload form => ?_, fun claimPayload form => ?_,
    fun claimPayload form => ?_⟩
  · cases claimPayload with
    | none => simpa [PaymentGroup.InternalPayment] using h
    | some c =>
    cases form with
    | none => simpa [PaymentGroup.InternalPayment] using h
    | some f =>
    cases hfrom : IsAccountExists DB f.FromAccount with
    | error e => simpa [PaymentGroup.InternalPayment, hfrom] using h
    | ok src =>
    by_cases hlt : src.Balance < f.Amount
    · simpa [PaymentGroup.InternalPayment, hfrom, hlt] using h
    · cases hto : IsAccountExists DB f.ToAccount with
      | error e => simpa [PaymentGroup.InternalPayment, hfrom, hlt, hto] using h
      | ok dst =>
        obtain ⟨hmem, _⟩ := IsAccountExists_ok DB _ src hfrom
        have hsuff : ∀ a ∈ DB.accounts, a.AccountID = src.AccountID → f.Amount ≤ a.Balance := by
          intro a ha hid
          have : a = src := List.inj_on_of_nodup_map huniq ha hmem hid
          rw [this]
          exact not_lt.mp hlt
        have key := internal_nonneg_of_sufficient env DB src.AccountID dst.AccountID f.Amount
          f.Currency (fun x hx => hsub x _ hx) (fun x hx hy => hadd x _ hx hy) h hsuff
        have hstore : (PaymentGroup.InternalPayment env DB (some c) (some f)).store =
            (ProcessInternalPayment env DB src.AccountID dst.AccountID f.Amount
              f.Currency).store := by
          simp only [PaymentGroup.InternalPayment, hfrom, hlt, hto, if_false]
          split
          · split_ifs <;> rfl
          · rfl
        rw [hstore]
        exact key
  · cases claimPayload with
    | none => simpa [PaymentGroup.ExternalPayment] using h
    | some c =>
    cases form with
    | none => simpa [PaymentGroup.ExternalPayment] using h
    | some f =>
    cases hfrom : IsAccountExists DB f.Account with
    | error e => simpa [PaymentGroup.ExternalPayment, hfrom] using h
    | ok src =>
      have key := (external_topup_preserve_nonneg env DB hge hadd h).1 f.Recipient
        src.AccountID f.Amount f.Currency
      simp only [PaymentGroup.ExternalPayment, hfrom]
      split_ifs
      · exact h
      · split <;> exact key
      · split <;> exact key
      · exact h
  · cases claimPayload with
    | none => simpa [PaymentGroup.TopUp] using h
    | some c =>
    cases form with
    | none => simpa [PaymentGroup.TopUp] using h
    | some f =>
    cases hfrom : IsAccountExists DB f.Account with
    | error e => simpa [PaymentGroup.TopUp, hfrom] using h
    | ok src =>
      have key := (external_topup_preserve_nonneg env DB hge hadd h).2 src.AccountID f.Amount
        f.Currency
      simp only [PaymentGroup.TopUp, hfrom]
      split <;> exact key

/-- C21 (failing input): on SQLite, the store `A` = 1.788871137, `B` = 0 has unique account
identifiers and only non-negative balances.  The single authenticated InternalPayment
request of 1.788871137 from `A` to `B` passes the pre-checks of the handler (the amount is
not above the balance), the engine is invoked once, the response is HTTP 200, and the
resulting store holds `A` at -0.0000000000000002220446049250313, a negative balance. -/
theorem handler_internal_leaves_negative_balance :
    (storeWhole.accounts.map (·.AccountID)).Nodup ∧
      (∀ a ∈ storeWhole.accounts, 0 ≤ a.Balance) ∧
      (PaymentGroup.InternalPayment envSqlite storeWhole (some claim0)
        (some ⟨"A", "B", 1.788871137, "USD"⟩)).engine =
        [EngineCall.internal "A" "B" 1.788871137 "USD"] ∧
      (PaymentGroup.InternalPayment envSqlite storeWhole (some claim0)
        (some ⟨"A", "B", 1.788871137, "USD"⟩)).response.Code = 200 ∧
      balance (PaymentGroup.InternalPayment envSqlite storeWhole (some claim0)
        (some ⟨"A", "B", 1.788871137, "USD"⟩)).store "A" =
        some (-0.0000000000000002220446049250313) ∧
      ∃ a ∈ (PaymentGroup.InternalPayment envSqlite storeWhole (some claim0)
        (some ⟨"A", "B", 1.788871137, "USD"⟩)).store.accounts, a.Balance < 0 := by
  have h : ¬ ((1.788871137 : Decimal) ≤ 0) := by norm_num
  simp [h, PaymentGroup.InternalPayment, IsAccountExists, responseMessage,
    ProcessInternalPayment, envSqlite, storeWhole, balance, Begin, Exec, debitAny, credit,
    updateAccounts, CreatePayment, Commit, Faults.none, arithSqlite]
  norm_num

/-- The same request of the whole balance of `A` through the ExternalPayment handler, whose
engine operation debits under `AND balance >= $1`: the database finds the condition false,
the handler answers HTTP 500 and the store is unchanged. -/
theorem handler_external_whole_balance_refused :
    (PaymentGroup.ExternalPayment envSqlite storeWhole (some claim0)
        (some ⟨"A", 1.788871137, "USD", "BANK_TRANSFER", recipient0⟩)).response.Code = 500 ∧
      (PaymentGroup.ExternalPayment envSqlite storeWhole (some claim0)
        (some ⟨"A", 1.788871137, "USD", "BANK_TRANSFER", recipient0⟩)).store = storeWhole := by
  have h : ¬ ((1.788871137 : Decimal) ≤ 0) := by norm_num
  simp [h, PaymentGroup.ExternalPayment, IsAccountExists, messageError,
    ProcessExternalPayment, envSqlite, storeWhole, Begin, Exec, debitIfSufficient,
    updateAccounts, CreatePayment, Commit, Faults.none, arithSqlite]
  norm_num

end Grey
